import Mathlib

/-!
Verification of the MCP Looker proxy (`src/mcp-looker-proxy/server.js`).

The server is a single Express application exposing `POST /mcp` (a JSON-RPC
dispatcher), a static tool registry, a tool executor implemented as a switch
over tool names, and a thin upstream client (`lookerApiCall`).  We embed the
relevant JavaScript values and functions shallowly:

* JSON/JS values are modelled by the inductive `Json` (numbers are modelled as
  integers, which covers every number the proxy itself constructs);
* JS object fields holding `undefined` are dropped at construction time by
  `mkObj`, which is observationally faithful because every value the server
  builds is only ever observed through `JSON.stringify`, and `JSON.stringify`
  drops `undefined`-valued keys;
* the upstream (Looker REST API) is an oracle `Upstream` mapping each issued
  request to a response; computations that call upstream live in the monad
  `ApiM`, which records the trace of issued requests and propagates thrown
  errors as `Except String`.
-/

set_option maxHeartbeats 1000000

namespace McpProxy

/-- JSON / JavaScript values (numbers modelled as integers). -/
inductive Json where
  | null : Json
  | bool (tf : Bool) : Json
  | num (i : Int) : Json
  | str (text : String) : Json
  | arr (items : List Json) : Json
  | obj (pairs : List (String × Json)) : Json
deriving Repr

mutual

/-- Structural equality of JSON values. -/
def Json.beq (v w : Json) : Bool :=
  match v, w with
  | .null, .null => true
  | .bool p, .bool q => p == q
  | .num p, .num q => p == q
  | .str p, .str q => p == q
  | .arr us, .arr ws => Json.beqElems us ws
  | .obj us, .obj ws => Json.beqPairs us ws
  | _, _ => false

/-- Structural equality of JSON value lists. -/
def Json.beqElems (us ws : List Json) : Bool :=
  match us, ws with
  | [], [] => true
  | u :: tl₁, w :: tl₂ => Json.beq u w && Json.beqElems tl₁ tl₂
  | _, _ => false

/-- Structural equality of JSON object entry lists. -/
def Json.beqPairs (us ws : List (String × Json)) : Bool :=
  match us, ws with
  | [], [] => true
  | (j, u) :: tl₁, (k, w) :: tl₂ => j == k && Json.beq u w && Json.beqPairs tl₁ tl₂
  | _, _ => false

end

instance : BEq Json := ⟨Json.beq⟩

/-- Induction principle for `Json` giving hypotheses for every element of a
nested list. -/
theorem Json.inductionOn {P : Json → Prop}
    (hnull : P .null)
    (hbool : ∀ b, P (.bool b))
    (hnum : ∀ n, P (.num n))
    (hstr : ∀ s, P (.str s))
    (harr : ∀ xs, (∀ x ∈ xs, P x) → P (.arr xs))
    (hobj : ∀ kvs, (∀ kv ∈ kvs, P (Prod.snd kv)) → P (.obj kvs)) :
    ∀ v, P v := by
  intro v
  match v with
  | .null => exact hnull
  | .bool b => exact hbool b
  | .num n => exact hnum n
  | .str s => exact hstr s
  | .arr xs =>
    refine harr xs (fun x hx => ?_)
    have hlt : sizeOf x < 1 + sizeOf xs := by
      have h1 := List.sizeOf_lt_of_mem hx
      omega
    exact Json.inductionOn hnull hbool hnum hstr harr hobj x
  | .obj kvs =>
    refine hobj kvs (fun kv hkv => ?_)
    have hlt : sizeOf kv.2 < 1 + sizeOf kvs := by
      have h1 := List.sizeOf_lt_of_mem hkv
      have h2 : sizeOf kv.2 < sizeOf kv := by
        obtain ⟨a, b⟩ := kv
        simp only [Prod.mk.sizeOf_spec]
        omega
      omega
    exact Json.inductionOn hnull hbool hnum hstr harr hobj kv.2
termination_by v => sizeOf v
decreasing_by
  · simp only [Json.arr.sizeOf_spec]; omega
  · simp only [Json.obj.sizeOf_spec]; omega

theorem Json.beq_iff : ∀ v w : Json, (Json.beq v w = true ↔ v = w) := by
  intro v
  induction v using Json.inductionOn with
  | hnull => intro w; cases w <;> simp [Json.beq]
  | hbool b => intro w; cases w <;> simp [Json.beq]
  | hnum n => intro w; cases w <;> simp [Json.beq]
  | hstr s => intro w; cases w <;> simp [Json.beq]
  | harr xs ih =>
    intro w
    cases w with
    | arr ys =>
      simp only [Json.beq, Json.arr.injEq]
      induction xs generalizing ys with
      | nil => cases ys <;> simp [Json.beqElems]
      | cons x xs ihx =>
        cases ys with
        | nil => simp [Json.beqElems]
        | cons y ys =>
          simp only [Json.beqElems, Bool.and_eq_true, List.cons.injEq]
          constructor
          · rintro ⟨h1, h2⟩
            exact ⟨(ih x (by simp) y).mp h1,
              (ihx (fun a ha => ih a (by simp [ha])) ys).mp h2⟩
          · rintro ⟨h1, h2⟩
            exact ⟨(ih x (by simp) y).mpr h1,
              (ihx (fun a ha => ih a (by simp [ha])) ys).mpr h2⟩
    | null => simp [Json.beq]
    | bool b => simp [Json.beq]
    | num n => simp [Json.beq]
    | str s => simp [Json.beq]
    | obj kvs => simp [Json.beq]
  | hobj kvs ih =>
    intro w
    cases w with
    | obj ws =>
      simp only [Json.beq, Json.obj.injEq]
      induction kvs generalizing ws with
      | nil => cases ws <;> simp [Json.beqPairs]
      | cons kv kvs ihk =>
        cases ws with
        | nil => simp [Json.beqPairs]
        | cons w ws =>
          obtain ⟨k₁, v₁⟩ := kv
          obtain ⟨k₂, v₂⟩ := w
          simp only [Json.beqPairs, Bool.and_eq_true, List.cons.injEq,
            Prod.mk.injEq, beq_iff_eq]
          constructor
          · rintro ⟨⟨h0, h1⟩, h2⟩
            exact ⟨⟨h0, (ih (k₁, v₁) (by simp) v₂).mp h1⟩,
              (ihk (fun a ha => ih a (by simp [ha])) ws).mp h2⟩
          · rintro ⟨⟨h0, h1⟩, h2⟩
            exact ⟨⟨h0, (ih (k₁, v₁) (by simp) v₂).mpr h1⟩,
              (ihk (fun a ha => ih a (by simp [ha])) ws).mpr h2⟩
    | null => simp [Json.beq]
    | bool b => simp [Json.beq]
    | num n => simp [Json.beq]
    | str s => simp [Json.beq]
    | arr xs => simp [Json.beq]

instance : DecidableEq Json :=
  fun v w => decidable_of_iff (Json.beq v w = true) (Json.beq_iff v w)

/-- JavaScript truthiness of a (defined) value. -/
def jsTruthy : Json → Bool
  | .null => false
  | .bool b => b
  | .num n => n != 0
  | .str s => !s.isEmpty
  | .arr _ => true
  | .obj _ => true

/-- JavaScript truthiness of a possibly-`undefined` value
(`none` models `undefined`). -/
def jsTruthyOpt : Option Json → Bool
  | none => false
  | some v => jsTruthy v

/-- JS property access `v.k`: `some` of the first binding in an object,
`none` (i.e. `undefined`) otherwise. -/
def getField (v : Json) (k : String) : Option Json :=
  match v with
  | .obj entries => (entries.find? (fun e => e.1 == k)).map (·.2)
  | _ => none

/-- Decimal digits of a natural number, most significant first. -/
def natToChars (n : Nat) : List Char :=
  if n < 10 then [Char.ofNat (48 + n)]
  else natToChars (n / 10) ++ [Char.ofNat (48 + n % 10)]
decreasing_by
  have : n / 10 < n := Nat.div_lt_self (by omega) (by omega)
  omega

/-- Decimal rendering of an integer (the string JS emits for an integral
number). -/
def intToString (n : Int) : String :=
  if n < 0 then "-" ++ String.mk (natToChars n.natAbs)
  else String.mk (natToChars n.natAbs)

mutual

/-- `String(v)` for the values the proxy interpolates into template literals
and `URLSearchParams` (`intToString` is the decimal rendering JS produces
for an integral number). -/
def jsToString : Json → String
  | .null => "null"
  | .bool true => "true"
  | .bool false => "false"
  | .num n => intToString n
  | .str s => s
  | .arr elts => String.intercalate "," (jsToStringElems elts)
  | .obj _ => "[object Object]"

/-- Element strings of JS `Array.prototype.toString` (null elements print as
the empty string). -/
def jsToStringElems : List Json → List String
  | [] => []
  | .null :: rest => "" :: jsToStringElems rest
  | v :: rest => jsToString v :: jsToStringElems rest

end

/-- `String(v)` where `v` may be `undefined`. -/
def jsToStringU : Option Json → String
  | none => "undefined"
  | some v => jsToString v

/-- JS `a || d`: the left value when it is defined and truthy, else `d`. -/
def jsOr (a : Option Json) (d : Json) : Json :=
  match a with
  | some v => if jsTruthy v then v else d
  | none => d

/-- JS `a || d` on strings where `a` may be `undefined`
(models `args.limit?.toString() || '500'`). -/
def jsOrStr (a : Option String) (d : String) : String :=
  match a with
  | some s => if s.isEmpty then d else s
  | none => d

/-- `args.limit?.toString()`: `undefined` stays `undefined`, otherwise the JS
string conversion. -/
def optToStr (a : Option Json) : Option String :=
  a.map jsToString

/-- Object-literal construction.  A field whose value is `undefined` (`none`)
is dropped; this is observationally equal to the JS object because the server
only observes objects through `JSON.stringify`, which omits such keys. -/
def mkObj (fields : List (String × Option Json)) : Json :=
  .obj (fields.filterMap (fun f => f.2.map (fun v => (f.1, v))))

/-- Does a JSON object carry the key `k`? -/
def hasField (v : Json) (k : String) : Bool :=
  match v with
  | .obj entries => entries.any (fun e => e.1 == k)
  | _ => false

/-- JS `v === 'lit'` for a possibly-undefined value against a string literal. -/
def jsStrictEqStr (v : Option Json) (lit : String) : Bool :=
  v == some (.str lit)

/-! ### String search (JS `String.prototype.includes`) -/

/-- Does `pat` occur as a contiguous run inside the character list? -/
def listIncludes (pat : List Char) : List Char → Bool
  | [] => pat.isEmpty
  | c :: rest => pat.isPrefixOf (c :: rest) || listIncludes pat rest

/-- JS `s.includes(pat)`. -/
def strIncludes (s pat : String) : Bool :=
  listIncludes pat.data s.data

theorem listIncludes_append_right {pat s : List Char} (t : List Char)
    (h : listIncludes pat s = true) : listIncludes pat (s ++ t) = true := by
  induction s with
  | nil =>
    simp only [listIncludes, List.isEmpty_iff] at h
    subst h
    cases t with
    | nil => simp [listIncludes]
    | cons c cs => simp [listIncludes, List.isPrefixOf]
  | cons c cs ih =>
    simp only [listIncludes, Bool.or_eq_true] at h ⊢
    rcases h with h | h
    · left
      have hp : pat <+: c :: cs := by
        simpa [List.isPrefixOf_iff_prefix] using h
      have : pat <+: (c :: cs) ++ t := hp.trans (List.prefix_append _ _)
      simpa [List.isPrefixOf_iff_prefix] using this
    · right
      exact ih h

theorem strIncludes_append_left {s : String} {pat : String} (t : String)
    (h : strIncludes s pat = true) : strIncludes (s ++ t) pat = true := by
  simp only [strIncludes] at h ⊢
  rw [String.data_append]
  exact listIncludes_append_right _ h

/-! ### URL encoding (`URLSearchParams` and `encodeURIComponent`) -/

/-- Hex digit, uppercase (as emitted by percent-encoding in URLs). -/
def hexDigitUpper (n : Nat) : Char :=
  if n < 10 then Char.ofNat (48 + n) else Char.ofNat (55 + n)

/-- Percent-encoding of one byte, e.g. `%2F`. -/
def percentByte (n : Nat) : String :=
  String.mk ['%', hexDigitUpper (n / 16), hexDigitUpper (n % 16)]

/-- Percent-encoding of the UTF-8 bytes of one character. -/
def percentBytes (c : Char) : String :=
  String.join (((String.toUTF8 (String.singleton c)).data.toList).map
    (fun b => percentByte b.toNat))

/-- Characters `URLSearchParams` serializes literally
(application/x-www-form-urlencoded safe set). -/
def urlFormSafe (c : Char) : Bool :=
  c.isAlphanum || c == '*' || c == '-' || c == '.' || c == '_'

/-- `URLSearchParams` serialization of one string (space becomes `+`). -/
def urlFormEncode (s : String) : String :=
  String.join (s.data.map (fun c =>
    if urlFormSafe c then String.singleton c
    else if c == ' ' then "+"
    else percentBytes c))

/-- `params.toString()` for `URLSearchParams` holding the given key/value
pairs in insertion order. -/
def urlParamsToString (ps : List (String × String)) : String :=
  String.intercalate "&" (ps.map (fun p => urlFormEncode p.1 ++ "=" ++ urlFormEncode p.2))

/-- Characters `encodeURIComponent` leaves unescaped. -/
def uriComponentSafe (c : Char) : Bool :=
  c.isAlphanum || c == '-' || c == '_' || c == '.' || c == '!' ||
    c == '~' || c == '*' || c == '\'' || c == '(' || c == ')'

/-- JS `encodeURIComponent`. -/
def encodeURIComponent (s : String) : String :=
  String.join (s.data.map (fun c =>
    if uriComponentSafe c then String.singleton c else percentBytes c))

/-! ### The upstream client

The downstream Looker REST API is an oracle mapping each issued request to a
response.  `ApiM` is the computation type for code that issues upstream
requests: it records the trace of requests in issue order and propagates
thrown JS errors as `Except.error` of the error message. -/

/-- One HTTP request issued to the upstream API.  The `Authorization: Bearer`
and `Content-Type: application/json` headers that `lookerApiCall` always
attaches are represented by the `token` field. -/
structure ApiRequest where
  method : String
  path : String
  token : String
  body : Option Json
deriving Repr, DecidableEq

/-- An upstream response: a 2xx JSON body, a 2xx non-JSON body (delivered as
text), or a non-success status with its body text. -/
inductive ApiResponse where
  | okJson (v : Json)
  | okText (s : String)
  | err (status : Nat) (body : String)
deriving Repr, DecidableEq

/-- The upstream API as an oracle. -/
def Upstream : Type := ApiRequest → ApiResponse

/-- Outcome of a server computation: the thrown-or-returned result and the
trace of upstream requests issued (in order). -/
structure ApiOut (α : Type) where
  result : Except String α
  trace : List ApiRequest

/-- Computations that may call the upstream API and throw JS errors. -/
def ApiM (α : Type) : Type := Upstream → ApiOut α

def ApiM.pure (a : α) : ApiM α := fun _ => ⟨.ok a, []⟩

def ApiM.bind (x : ApiM α) (f : α → ApiM β) : ApiM β := fun u =>
  match x u with
  | ⟨.ok a, t⟩ =>
    let o := f a u
    ⟨o.result, t ++ o.trace⟩
  | ⟨.error e, t⟩ => ⟨.error e, t⟩

instance : Monad ApiM where
  pure := ApiM.pure
  bind := ApiM.bind

theorem ApiM.bind_eq {α β : Type} (x : ApiM α) (f : α → ApiM β) :
    x >>= f = ApiM.bind x f := rfl

theorem ApiM.pure_eq {α : Type} (a : α) : (pure a : ApiM α) = ApiM.pure a := rfl

theorem ApiM.pure_apply {α : Type} (a : α) (u : Upstream) :
    (pure a : ApiM α) u = ⟨.ok a, []⟩ := rfl

/-- `throw new Error(msg)`. -/
def throwJs (msg : String) : ApiM α := fun _ => ⟨.error msg, []⟩

/-- Run a computation capturing a thrown error instead of propagating it
(used to model `try { ... } catch (e) { ... }`). -/
def attempt (x : ApiM α) : ApiM (Except String α) := fun u =>
  let o := x u
  ⟨.ok o.result, o.trace⟩

/-- Configured base URL of the Looker instance (the source's fallback
default; the `LOOKER_BASE_URL` environment override is deployment
configuration outside the core). -/
def LOOKER_BASE_URL : String := "https://loveholidays.cloud.looker.com"

/-- `lookerApiCall(accessToken, method, path, body)` from `server.js`:
issues one request; on a non-2xx status reads the body text and throws
`` `Looker API error ${response.status}: ${error}` ``; on success returns the
parsed JSON body, or the raw text (a JS string value) when the response
content type is not JSON. -/
def lookerApiCall (accessToken method path : String) (body : Option Json := none) :
    ApiM Json := fun u =>
  let req : ApiRequest := ⟨method, path, accessToken, body⟩
  match u req with
  | .okJson v => ⟨.ok v, [req]⟩
  | .okText s => ⟨.ok (.str s), [req]⟩
  | .err status text =>
    ⟨.error ("Looker API error " ++ toString status ++ ": " ++ text), [req]⟩

/-! ### The tool registry (`const tools = [...]` in `server.js`) -/

/-- One MCP tool descriptor. -/
structure ToolDescriptor where
  name : String
  description : String
  inputSchema : Json
deriving Repr, DecidableEq

/-- A `{ type: ..., description: ... }` property schema. -/
def schemaProp (ty desc : String) : Json :=
  .obj [("type", .str ty), ("description", .str desc)]

/-- A `{ type: 'array', items: { type: 'string' }, description: ... }`
property schema. -/
def schemaStrArrayProp (desc : String) : Json :=
  .obj [("type", .str "array"), ("items", .obj [("type", .str "string")]),
    ("description", .str desc)]

/-- A `{ type: 'object', properties: {...}, required: [...] }` input schema. -/
def inputSchemaObj (props : List (String × Json)) (required : List String) : Json :=
  .obj [("type", .str "object"), ("properties", .obj props),
    ("required", .arr (required.map .str))]

/-- The static tool registry, in source declaration order. -/
def tools : List ToolDescriptor := [
  { name := "get_models",
    description := "Get all available LookML models in the source",
    inputSchema := inputSchemaObj [] [] },
  { name := "get_explores",
    description := "Get all explores for the given model from the source",
    inputSchema := inputSchemaObj
      [("model", schemaProp "string" "The model containing the explores")]
      ["model"] },
  { name := "get_dimensions",
    description := "Get all dimensions from a given explore in a given model",
    inputSchema := inputSchemaObj
      [("model", schemaProp "string" "The model containing the explore"),
       ("explore", schemaProp "string" "The explore containing the fields")]
      ["model", "explore"] },
  { name := "get_measures",
    description := "Get all measures from a given explore in a given model",
    inputSchema := inputSchemaObj
      [("model", schemaProp "string" "The model containing the explore"),
       ("explore", schemaProp "string" "The explore containing the fields")]
      ["model", "explore"] },
  { name := "get_filters",
    description := "Get all filters from a given explore in a given model",
    inputSchema := inputSchemaObj
      [("model", schemaProp "string" "The model containing the explore"),
       ("explore", schemaProp "string" "The explore containing the fields")]
      ["model", "explore"] },
  { name := "get_parameters",
    description := "Get all parameters from a given explore in a given model",
    inputSchema := inputSchemaObj
      [("model", schemaProp "string" "The model containing the explore"),
       ("explore", schemaProp "string" "The explore containing the fields")]
      ["model", "explore"] },
  { name := "query",
    description := "Run an inline query using the Looker semantic model",
    inputSchema := inputSchemaObj
      [("model", schemaProp "string" "The model containing the explore"),
       ("explore", schemaProp "string" "The explore to be queried"),
       ("fields", schemaStrArrayProp "The fields to retrieve"),
       ("filters", schemaProp "object" "The filters for the query"),
       ("pivots", schemaStrArrayProp "Pivot fields"),
       ("sorts", schemaStrArrayProp "Sort fields"),
       ("limit", schemaProp "integer" "Row limit"),
       ("tz", schemaProp "string" "Query timezone")]
      ["model", "explore", "fields"] },
  { name := "query_sql",
    description := "Generate SQL for a query using the Looker semantic model",
    inputSchema := inputSchemaObj
      [("model", schemaProp "string" "The model containing the explore"),
       ("explore", schemaProp "string" "The explore to be queried"),
       ("fields", schemaStrArrayProp "The fields to retrieve"),
       ("filters", schemaProp "object" "The filters for the query"),
       ("pivots", schemaStrArrayProp "Pivot fields"),
       ("sorts", schemaStrArrayProp "Sort fields"),
       ("limit", schemaProp "integer" "Row limit"),
       ("tz", schemaProp "string" "Query timezone")]
      ["model", "explore", "fields"] },
  { name := "query_url",
    description := "Generate a URL link to a Looker explore",
    inputSchema := inputSchemaObj
      [("model", schemaProp "string" "The model containing the explore"),
       ("explore", schemaProp "string" "The explore to be queried"),
       ("fields", schemaStrArrayProp "The fields to retrieve"),
       ("filters", schemaProp "object" "The filters for the query"),
       ("pivots", schemaStrArrayProp "Pivot fields"),
       ("sorts", schemaStrArrayProp "Sort fields"),
       ("limit", schemaProp "integer" "Row limit"),
       ("tz", schemaProp "string" "Query timezone"),
       ("vis_config", schemaProp "object" "Visualization config")]
      ["model", "explore", "fields"] },
  { name := "get_dashboards",
    description := "Search for saved Dashboards by name or description",
    inputSchema := inputSchemaObj
      [("title", schemaProp "string" "Dashboard title to search"),
       ("desc", schemaProp "string" "Dashboard description to search"),
       ("limit", schemaProp "integer" "Number of results"),
       ("offset", schemaProp "integer" "Offset for pagination")]
      [] },
  { name := "run_dashboard",
    description := "Run the queries associated with a dashboard",
    inputSchema := inputSchemaObj
      [("dashboard_id", schemaProp "string" "The dashboard ID to run"),
       ("filters", schemaProp "object" "Dashboard filters to apply")]
      ["dashboard_id"] },
  { name := "make_dashboard",
    description := "Create a new dashboard in the users personal folder in Looker",
    inputSchema := inputSchemaObj
      [("title", schemaProp "string" "The title of the Dashboard"),
       ("description", schemaProp "string" "The description of the Dashboard")]
      ["title"] },
  { name := "add_dashboard_element",
    description := "Create a dashboard element (tile) in the given dashboard",
    inputSchema := inputSchemaObj
      [("dashboard_id", schemaProp "string" "The dashboard ID"),
       ("model", schemaProp "string" "The model containing the explore"),
       ("explore", schemaProp "string" "The explore to be queried"),
       ("fields", schemaStrArrayProp "The fields to retrieve"),
       ("filters", schemaProp "object" "The filters for the query"),
       ("pivots", schemaStrArrayProp "Pivot fields"),
       ("sorts", schemaStrArrayProp "Sort fields"),
       ("limit", schemaProp "integer" "Row limit"),
       ("title", schemaProp "string" "Title of the dashboard element"),
       ("vis_config", schemaProp "object" "Visualization config"),
       ("tz", schemaProp "string" "Query timezone")]
      ["dashboard_id", "model", "explore", "fields"] },
  { name := "get_looks",
    description := "Search for saved Looks in Looker",
    inputSchema := inputSchemaObj
      [("title", schemaProp "string" "Look title to search"),
       ("desc", schemaProp "string" "Look description to search"),
       ("limit", schemaProp "integer" "Number of results"),
       ("offset", schemaProp "integer" "Offset for pagination")]
      [] },
  { name := "run_look",
    description := "Run the query associated with a saved Look",
    inputSchema := inputSchemaObj
      [("look_id", schemaProp "string" "The Look ID to run"),
       ("limit", schemaProp "integer" "Row limit")]
      ["look_id"] },
  { name := "make_look",
    description := "Create a new Look in the users personal folder in Looker",
    inputSchema := inputSchemaObj
      [("title", schemaProp "string" "The title of the Look"),
       ("description", schemaProp "string" "The description of the Look"),
       ("model", schemaProp "string" "The model containing the explore"),
       ("explore", schemaProp "string" "The explore to be queried"),
       ("fields", schemaStrArrayProp "The fields to retrieve"),
       ("filters", schemaProp "object" "The filters for the query"),
       ("pivots", schemaStrArrayProp "Pivot fields"),
       ("sorts", schemaStrArrayProp "Sort fields"),
       ("limit", schemaProp "integer" "Row limit"),
       ("vis_config", schemaProp "object" "Visualization config"),
       ("tz", schemaProp "string" "Query timezone")]
      ["title", "model", "explore", "fields"] },
  { name := "get_connections",
    description := "Get all database connections in the Looker instance",
    inputSchema := inputSchemaObj [] [] },
  { name := "get_connection_databases",
    description := "Get all databases in a connection",
    inputSchema := inputSchemaObj
      [("connection_name", schemaProp "string" "The connection name")]
      ["connection_name"] },
  { name := "get_connection_schemas",
    description := "Get all schemas in a connection",
    inputSchema := inputSchemaObj
      [("connection_name", schemaProp "string" "The connection name"),
       ("database", schemaProp "string" "The database name")]
      ["connection_name"] },
  { name := "get_connection_tables",
    description := "Get all tables in a connection",
    inputSchema := inputSchemaObj
      [("connection_name", schemaProp "string" "The connection name"),
       ("database", schemaProp "string" "The database name"),
       ("schema", schemaProp "string" "The schema name")]
      ["connection_name"] },
  { name := "get_connection_table_columns",
    description := "Get all columns for specified tables in a connection",
    inputSchema := inputSchemaObj
      [("connection_name", schemaProp "string" "The connection name"),
       ("database", schemaProp "string" "The database name"),
       ("schema", schemaProp "string" "The schema name"),
       ("tables", schemaStrArrayProp "Table names")]
      ["connection_name", "tables"] },
  { name := "get_projects",
    description := "Get all LookML projects in the Looker instance",
    inputSchema := inputSchemaObj [] [] },
  { name := "get_project_files",
    description := "Get all LookML files in a project",
    inputSchema := inputSchemaObj
      [("project_id", schemaProp "string" "The project ID")]
      ["project_id"] },
  { name := "get_project_file",
    description := "Get the contents of a LookML file",
    inputSchema := inputSchemaObj
      [("project_id", schemaProp "string" "The project ID"),
       ("file_id", schemaProp "string" "The file ID")]
      ["project_id", "file_id"] },
  { name := "create_project_file",
    description := "Create a new LookML file in a project",
    inputSchema := inputSchemaObj
      [("project_id", schemaProp "string" "The project ID"),
       ("file_name", schemaProp "string" "The file name"),
       ("content", schemaProp "string" "The file content")]
      ["project_id", "file_name", "content"] },
  { name := "update_project_file",
    description := "Update the content of a LookML file in a project",
    inputSchema := inputSchemaObj
      [("project_id", schemaProp "string" "The project ID"),
       ("file_id", schemaProp "string" "The file ID"),
       ("content", schemaProp "string" "The new file content")]
      ["project_id", "file_id", "content"] },
  { name := "delete_project_file",
    description := "Delete a LookML file in a project",
    inputSchema := inputSchemaObj
      [("project_id", schemaProp "string" "The project ID"),
       ("file_id", schemaProp "string" "The file ID")]
      ["project_id", "file_id"] },
  { name := "dev_mode",
    description := "Change the current session into or out of dev mode",
    inputSchema := inputSchemaObj
      [("enable", schemaProp "boolean" "Enable or disable dev mode")]
      ["enable"] },
  { name := "generate_embed_url",
    description := "Generate an embeddable URL for Looker content",
    inputSchema := inputSchemaObj
      [("target_url", schemaProp "string" "The URL to embed"),
       ("session_length", schemaProp "integer" "Session length in seconds"),
       ("force_logout_login", schemaProp "boolean" "Force logout and login")]
      ["target_url"] },
  { name := "health_pulse",
    description := "Perform health checks on a Looker instance (database connections, dashboard performance, etc)",
    inputSchema := inputSchemaObj
      [("action", schemaProp "string" "Health check action to perform")]
      [] },
  { name := "health_analyze",
    description := "Analyze projects, models, and explores in a Looker instance",
    inputSchema := inputSchemaObj
      [("action", schemaProp "string" "Analysis action to perform"),
       ("project", schemaProp "string" "Project to analyze"),
       ("model", schemaProp "string" "Model to analyze")]
      [] },
  { name := "health_vacuum",
    description := "Audit and identify unused LookML objects in a Looker instance",
    inputSchema := inputSchemaObj
      [("action", schemaProp "string" "Vacuum action to perform"),
       ("project", schemaProp "string" "Project to audit")]
      [] },
  { name := "conversational_analytics",
    description := "Use the Conversational Analytics API to analyze data from Looker using natural language",
    inputSchema := inputSchemaObj
      [("question", schemaProp "string" "Natural language question to ask"),
       ("model", schemaProp "string" "The model to query"),
       ("explore", schemaProp "string" "The explore to query")]
      ["question"] }
]

/-- Serialization of a descriptor into the `tools/list` result payload. -/
def toolToJson (d : ToolDescriptor) : Json :=
  .obj [("name", .str d.name), ("description", .str d.description),
    ("inputSchema", d.inputSchema)]

/-! ### The tool executor (`executeTool` in `server.js`)

The source's `switch (toolName)` with one `case` per tool (each case body
returning or throwing) is embedded as first-match dispatch over the list of
case-labelled handlers `executorHandlers`; the `default` branch is the
`none` case of the lookup. -/

/-- `v.map(f)`: maps over an array, throws a `TypeError` otherwise. -/
def jsMapArr (v : Json) (f : Json → Json) : ApiM Json :=
  match v with
  | .arr xs => pure (.arr (xs.map f))
  | _ => throwJs "TypeError: map is not a function"

/-- Optional-chain field access `v?.k`: `undefined` when the receiver is
`undefined` or `null`. -/
def optChainField (v : Option Json) (k : String) : Option Json :=
  match v with
  | none => none
  | some .null => none
  | some w => getField w k

/-- `v?.map(f) || []`: the empty array when `v` is `undefined`/`null`, the
mapped array when `v` is an array, a `TypeError` otherwise. -/
def jsMapOptChainOrEmpty (v : Option Json) (f : Json → Json) : ApiM Json :=
  match v with
  | none => pure (.arr [])
  | some .null => pure (.arr [])
  | some (.arr xs) => pure (.arr (xs.map f))
  | some _ => throwJs "TypeError: map is not a function"

/-- The query object literal the source repeats in `query`, `query_sql` and
(with `vis_config`, see `buildQueryBodyVis`) in `query_url`,
`add_dashboard_element` and `make_look`:
`{ model, view, fields, filters: args.filters || {}, pivots: args.pivots || [],`
`sorts: args.sorts || [], limit: args.limit?.toString() || '500',`
`query_timezone: args.tz }`. -/
def buildQueryBody (args : Json) : Json :=
  mkObj [
    ("model", getField args "model"),
    ("view", getField args "explore"),
    ("fields", getField args "fields"),
    ("filters", some (jsOr (getField args "filters") (.obj []))),
    ("pivots", some (jsOr (getField args "pivots") (.arr []))),
    ("sorts", some (jsOr (getField args "sorts") (.arr []))),
    ("limit", some (.str (jsOrStr (optToStr (getField args "limit")) "500"))),
    ("query_timezone", getField args "tz")]

/-- The query object literal with a trailing
`vis_config: args.vis_config || {}` field. -/
def buildQueryBodyVis (args : Json) : Json :=
  mkObj [
    ("model", getField args "model"),
    ("view", getField args "explore"),
    ("fields", getField args "fields"),
    ("filters", some (jsOr (getField args "filters") (.obj []))),
    ("pivots", some (jsOr (getField args "pivots") (.arr []))),
    ("sorts", some (jsOr (getField args "sorts") (.arr []))),
    ("limit", some (.str (jsOrStr (optToStr (getField args "limit")) "500"))),
    ("query_timezone", getField args "tz"),
    ("vis_config", some (jsOr (getField args "vis_config") (.obj [])))]

/-- The `URLSearchParams` built identically by `get_dashboards` and
`get_looks`: `title`, `description` (from `args.desc`), `limit`, `offset`,
each appended only when the argument is truthy. -/
def searchParamsFor (args : Json) : List (String × String) :=
  (if jsTruthyOpt (getField args "title")
    then [("title", jsToStringU (getField args "title"))] else []) ++
  (if jsTruthyOpt (getField args "desc")
    then [("description", jsToStringU (getField args "desc"))] else []) ++
  (if jsTruthyOpt (getField args "limit")
    then [("limit", jsToStringU (getField args "limit"))] else []) ++
  (if jsTruthyOpt (getField args "offset")
    then [("offset", jsToStringU (getField args "offset"))] else [])

/-- `base + (params.toString() ? `?${params}` : '')`. -/
def searchPath (base : String) (ps : List (String × String)) : String :=
  let qs := urlParamsToString ps
  base ++ (if qs.isEmpty then "" else "?" ++ qs)

/-- The `run_dashboard` element loop: for every element with a truthy
`query_id`, run its query, pushing a `data` entry on success and an `error`
entry when the run throws; elements without a query id are skipped. -/
def runDashboardLoop (accessToken : String) : List Json → List Json → ApiM Json
  | [], acc => ApiM.pure (.arr acc)
  | element :: rest, acc =>
    if jsTruthyOpt (getField element "query_id") then
      ApiM.bind
        (attempt (lookerApiCall accessToken "GET"
          ("/api/4.0/queries/" ++ jsToStringU (getField element "query_id") ++ "/run/json")))
        (fun r =>
          match r with
          | .ok result =>
            runDashboardLoop accessToken rest (acc ++ [mkObj [
              ("element_id", getField element "id"),
              ("title", getField element "title"),
              ("data", some result)]])
          | .error e =>
            runDashboardLoop accessToken rest (acc ++ [mkObj [
              ("element_id", getField element "id"),
              ("title", getField element "title"),
              ("error", some (.str e))]]))
    else
      runDashboardLoop accessToken rest acc

/-- The executor's case-labelled handlers, in source `case` order.  Each
handler receives the tool arguments and the access token. -/
def executorHandlers : List (String × (Json → String → ApiM Json)) := [
  ("get_models", fun _args accessToken => do
    let models ← lookerApiCall accessToken "GET" "/api/4.0/lookml_models"
    jsMapArr models (fun m => mkObj [
      ("name", getField m "name"),
      ("label", getField m "label"),
      ("has_content", getField m "has_content")])),
  ("get_explores", fun args accessToken => do
    let model ← lookerApiCall accessToken "GET"
      ("/api/4.0/lookml_models/" ++ jsToStringU (getField args "model"))
    jsMapOptChainOrEmpty (getField model "explores") (fun e => mkObj [
      ("name", getField e "name"),
      ("label", getField e "label"),
      ("description", getField e "description"),
      ("hidden", getField e "hidden")])),
  ("get_dimensions", fun args accessToken => do
    let explore ← lookerApiCall accessToken "GET"
      ("/api/4.0/lookml_models/" ++ jsToStringU (getField args "model") ++
        "/explores/" ++ jsToStringU (getField args "explore"))
    jsMapOptChainOrEmpty (optChainField (getField explore "fields") "dimensions")
      (fun d => mkObj [
        ("name", getField d "name"),
        ("label", getField d "label"),
        ("type", getField d "type"),
        ("description", getField d "description"),
        ("sql", getField d "sql"),
        ("suggest_explore", getField d "suggest_explore"),
        ("suggest_dimension", getField d "suggest_dimension"),
        ("suggestions", getField d "suggestions")])),
  ("get_measures", fun args accessToken => do
    let explore ← lookerApiCall accessToken "GET"
      ("/api/4.0/lookml_models/" ++ jsToStringU (getField args "model") ++
        "/explores/" ++ jsToStringU (getField args "explore"))
    jsMapOptChainOrEmpty (optChainField (getField explore "fields") "measures")
      (fun m => mkObj [
        ("name", getField m "name"),
        ("label", getField m "label"),
        ("type", getField m "type"),
        ("description", getField m "description"),
        ("sql", getField m "sql"),
        ("suggest_explore", getField m "suggest_explore"),
        ("suggest_dimension", getField m "suggest_dimension"),
        ("suggestions", getField m "suggestions")])),
  ("get_filters", fun args accessToken => do
    let explore ← lookerApiCall accessToken "GET"
      ("/api/4.0/lookml_models/" ++ jsToStringU (getField args "model") ++
        "/explores/" ++ jsToStringU (getField args "explore"))
    jsMapOptChainOrEmpty (optChainField (getField explore "fields") "filters")
      (fun f => mkObj [
        ("name", getField f "name"),
        ("label", getField f "label"),
        ("type", getField f "type"),
        ("description", getField f "description")])),
  ("get_parameters", fun args accessToken => do
    let explore ← lookerApiCall accessToken "GET"
      ("/api/4.0/lookml_models/" ++ jsToStringU (getField args "model") ++
        "/explores/" ++ jsToStringU (getField args "explore"))
    jsMapOptChainOrEmpty (optChainField (getField explore "fields") "parameters")
      (fun p => mkObj [
        ("name", getField p "name"),
        ("label", getField p "label"),
        ("type", getField p "type"),
        ("description", getField p "description"),
        ("default_value", getField p "default_value"),
        ("allowed_values", getField p "allowed_values")])),
  ("query", fun args accessToken =>
    lookerApiCall accessToken "POST" "/api/4.0/queries/run/json"
      (some (buildQueryBody args))),
  ("query_sql", fun args accessToken =>
    lookerApiCall accessToken "POST" "/api/4.0/queries/run/sql"
      (some (buildQueryBody args))),
  ("query_url", fun args accessToken => do
    let createdQuery ← lookerApiCall accessToken "POST" "/api/4.0/queries"
      (some (buildQueryBodyVis args))
    pure (mkObj [
      ("id", getField createdQuery "id"),
      ("slug", getField createdQuery "slug"),
      ("url", some (.str (LOOKER_BASE_URL ++ "/explore/" ++
        jsToStringU (getField args "model") ++ "/" ++
        jsToStringU (getField args "explore") ++ "?qid=" ++
        jsToStringU (getField createdQuery "slug")))),
      ("share_url", getField createdQuery "share_url")])),
  ("get_dashboards", fun args accessToken =>
    lookerApiCall accessToken "GET"
      (searchPath "/api/4.0/dashboards" (searchParamsFor args))),
  ("run_dashboard", fun args accessToken => do
    let elements ← lookerApiCall accessToken "GET"
      ("/api/4.0/dashboards/" ++ jsToStringU (getField args "dashboard_id") ++
        "/dashboard_elements")
    match elements with
    | .arr xs => runDashboardLoop accessToken xs []
    | _ => throwJs "TypeError: elements is not iterable"),
  ("make_dashboard", fun args accessToken => do
    let me ← lookerApiCall accessToken "GET" "/api/4.0/user"
    let dashboard ← lookerApiCall accessToken "POST" "/api/4.0/dashboards"
      (some (mkObj [
        ("title", getField args "title"),
        ("description", some (jsOr (getField args "description") (.str ""))),
        ("folder_id", getField me "personal_folder_id")]))
    pure (mkObj [
      ("id", getField dashboard "id"),
      ("title", getField dashboard "title"),
      ("url", some (.str (LOOKER_BASE_URL ++ "/dashboards/" ++
        jsToStringU (getField dashboard "id"))))])),
  ("add_dashboard_element", fun args accessToken => do
    let createdQuery ← lookerApiCall accessToken "POST" "/api/4.0/queries"
      (some (buildQueryBodyVis args))
    let element ← lookerApiCall accessToken "POST" "/api/4.0/dashboard_elements"
      (some (mkObj [
        ("dashboard_id", getField args "dashboard_id"),
        ("query_id", getField createdQuery "id"),
        ("title", some (jsOr (getField args "title") (.str ""))),
        ("type", some (.str "vis"))]))
    pure (mkObj [
      ("element_id", getField element "id"),
      ("query_id", getField createdQuery "id")])),
  ("get_looks", fun args accessToken =>
    lookerApiCall accessToken "GET"
      (searchPath "/api/4.0/looks" (searchParamsFor args))),
  ("run_look", fun args accessToken =>
    lookerApiCall accessToken "GET"
      ("/api/4.0/looks/" ++ jsToStringU (getField args "look_id") ++ "/run/json" ++
        (if jsTruthyOpt (getField args "limit")
          then "?limit=" ++ jsToStringU (getField args "limit") else ""))),
  ("make_look", fun args accessToken => do
    let me ← lookerApiCall accessToken "GET" "/api/4.0/user"
    let createdQuery ← lookerApiCall accessToken "POST" "/api/4.0/queries"
      (some (buildQueryBodyVis args))
    let look ← lookerApiCall accessToken "POST" "/api/4.0/looks"
      (some (mkObj [
        ("title", getField args "title"),
        ("description", some (jsOr (getField args "description") (.str ""))),
        ("folder_id", getField me "personal_folder_id"),
        ("query_id", getField createdQuery "id")]))
    pure (mkObj [
      ("id", getField look "id"),
      ("title", getField look "title"),
      ("url", some (.str (LOOKER_BASE_URL ++ "/looks/" ++
        jsToStringU (getField look "id"))))])),
  ("get_connections", fun _args accessToken =>
    lookerApiCall accessToken "GET" "/api/4.0/connections"),
  ("get_connection_databases", fun args accessToken =>
    lookerApiCall accessToken "GET"
      ("/api/4.0/connections/" ++ jsToStringU (getField args "connection_name") ++
        "/databases")),
  ("get_connection_schemas", fun args accessToken =>
    lookerApiCall accessToken "GET"
      ("/api/4.0/connections/" ++ jsToStringU (getField args "connection_name") ++
        "/schemas" ++
        (if jsTruthyOpt (getField args "database")
          then "?database=" ++ encodeURIComponent (jsToStringU (getField args "database"))
          else ""))),
  ("get_connection_tables", fun args accessToken =>
    lookerApiCall accessToken "GET"
      (searchPath
        ("/api/4.0/connections/" ++ jsToStringU (getField args "connection_name") ++
          "/tables")
        ((if jsTruthyOpt (getField args "database")
            then [("database", jsToStringU (getField args "database"))] else []) ++
          (if jsTruthyOpt (getField args "schema")
            then [("schema_name", jsToStringU (getField args "schema"))] else [])))),
  ("get_connection_table_columns", fun args accessToken =>
    lookerApiCall accessToken "POST" "/api/4.0/connections/columns"
      (some (mkObj [
        ("connection_name", getField args "connection_name"),
        ("database", getField args "database"),
        ("schema_name", getField args "schema"),
        ("table_names", getField args "tables")]))),
  ("get_projects", fun _args accessToken =>
    lookerApiCall accessToken "GET" "/api/4.0/projects"),
  ("get_project_files", fun args accessToken =>
    lookerApiCall accessToken "GET"
      ("/api/4.0/projects/" ++ jsToStringU (getField args "project_id") ++ "/files")),
  ("get_project_file", fun args accessToken =>
    lookerApiCall accessToken "GET"
      ("/api/4.0/projects/" ++ jsToStringU (getField args "project_id") ++
        "/files/" ++ encodeURIComponent (jsToStringU (getField args "file_id")))),
  ("create_project_file", fun args accessToken =>
    lookerApiCall accessToken "POST"
      ("/api/4.0/projects/" ++ jsToStringU (getField args "project_id") ++ "/files")
      (some (mkObj [
        ("path", getField args "file_name"),
        ("content", getField args "content")]))),
  ("update_project_file", fun args accessToken =>
    lookerApiCall accessToken "PATCH"
      ("/api/4.0/projects/" ++ jsToStringU (getField args "project_id") ++
        "/files/" ++ encodeURIComponent (jsToStringU (getField args "file_id")))
      (some (mkObj [("content", getField args "content")]))),
  ("delete_project_file", fun args accessToken => do
    let _ ← lookerApiCall accessToken "DELETE"
      ("/api/4.0/projects/" ++ jsToStringU (getField args "project_id") ++
        "/files/" ++ encodeURIComponent (jsToStringU (getField args "file_id")))
    pure (.obj [("success", .bool true)])),
  ("dev_mode", fun args accessToken => do
    let session ← lookerApiCall accessToken "PATCH" "/api/4.0/session"
      (some (.obj [("workspace_id",
        .str (if jsTruthyOpt (getField args "enable") then "dev" else "production"))]))
    pure (.obj [("dev_mode",
      .bool (jsStrictEqStr (getField session "workspace_id") "dev"))])),
  ("generate_embed_url", fun args accessToken => do
    let result ← lookerApiCall accessToken "POST" "/api/4.0/embed/sso_url"
      (some (mkObj [
        ("target_url", getField args "target_url"),
        ("session_length", some (jsOr (getField args "session_length") (.num 600))),
        ("force_logout_login", some (jsOr (getField args "force_logout_login") (.bool false)))]))
    pure result),
  ("health_pulse", fun _args accessToken => do
    let c ← attempt (lookerApiCall accessToken "GET" "/api/4.0/connections")
    match c with
    | .error e => pure (mkObj [("error", some (.str e))])
    | .ok connections => do
      let r ← attempt (lookerApiCall accessToken "GET" "/api/4.0/running_queries")
      match r with
      | .error e => pure (mkObj [
          ("connections", some connections),
          ("error", some (.str e))])
      | .ok running => pure (mkObj [
          ("connections", some connections),
          ("running_queries", some running)])),
  ("health_analyze", fun args accessToken => do
    let projectPart ←
      if jsTruthyOpt (getField args "project") then do
        let project ← lookerApiCall accessToken "GET"
          ("/api/4.0/projects/" ++ jsToStringU (getField args "project"))
        let validation ← lookerApiCall accessToken "POST"
          ("/api/4.0/projects/" ++ jsToStringU (getField args "project") ++ "/validate")
        pure [("project", project), ("validation", validation)]
      else pure []
    let modelPart ←
      if jsTruthyOpt (getField args "model") then do
        let model ← lookerApiCall accessToken "GET"
          ("/api/4.0/lookml_models/" ++ jsToStringU (getField args "model"))
        pure [("model", model)]
      else pure []
    pure (.obj (projectPart ++ modelPart))),
  ("health_vacuum", fun args accessToken => do
    let c ← attempt
      (lookerApiCall accessToken "GET" "/api/4.0/content_metadata_access?limit=100")
    match c with
    | .error e => pure (mkObj [("error", some (.str e))])
    | .ok contentUsage =>
      if jsTruthyOpt (getField args "project") then do
        let f ← attempt (lookerApiCall accessToken "GET"
          ("/api/4.0/projects/" ++ jsToStringU (getField args "project") ++ "/files"))
        match f with
        | .error e => pure (mkObj [
            ("content_usage", some contentUsage),
            ("error", some (.str e))])
        | .ok files => pure (mkObj [
            ("content_usage", some contentUsage),
            ("project_files", some files)])
      else pure (mkObj [("content_usage", some contentUsage)])),
  ("conversational_analytics", fun args accessToken => do
    let r ← attempt (lookerApiCall accessToken "POST"
      "/api/4.0/conversational_analytics/query"
      (some (mkObj [
        ("query", getField args "question"),
        ("model", getField args "model"),
        ("explore", getField args "explore")])))
    match r with
    | .ok v => pure v
    | .error e => pure (.obj [
        ("error", .str "Conversational Analytics API may not be enabled on this instance"),
        ("details", .str e)]))
]

/-- Lookup of the switch case matching a tool name. -/
def findHandler (toolName : String) : Option (Json → String → ApiM Json) :=
  (executorHandlers.find? (fun h => h.1 == toolName)).map (·.2)

/-- `executeTool(toolName, args, accessToken)`: the falsy-token guard, then
the switch over tool names with the `default` branch throwing
`` `Unknown tool: ${toolName}` ``. -/
def executeTool (toolName : String) (args : Json) (accessToken : String) : ApiM Json :=
  if accessToken.isEmpty then throwJs "OAuth authentication required"
  else
    match findHandler toolName with
    | some h => h args accessToken
    | none => throwJs ("Unknown tool: " ++ toolName)

/-! ### `JSON.stringify(v, null, 2)` -/

/-- Lowercase hex digit (as emitted by the JSON escape `\u00XX`). -/
def hexDigitLower (n : Nat) : Char :=
  if n < 10 then Char.ofNat (48 + n) else Char.ofNat (87 + n)

/-- JSON escaping of one character, as performed by `JSON.stringify`. -/
def escChar (c : Char) : String :=
  if c = '"' then "\\\""
  else if c = '\\' then "\\\\"
  else if c.toNat = 8 then "\\b"
  else if c.toNat = 9 then "\\t"
  else if c.toNat = 10 then "\\n"
  else if c.toNat = 12 then "\\f"
  else if c.toNat = 13 then "\\r"
  else if c.toNat < 32 then
    "\\u00" ++ String.mk [hexDigitLower (c.toNat / 16), hexDigitLower (c.toNat % 16)]
  else String.singleton c

/-- JSON escaping of a character list. -/
def escChars : List Char → List Char
  | [] => []
  | c :: rest => (escChar c).data ++ escChars rest

/-- A JSON string literal with surrounding quotes. -/
def escapeJsonString (s : String) : String :=
  "\"" ++ String.mk (escChars s.data) ++ "\""

/-- `n` spaces. -/
def spacesN (n : Nat) : String := String.mk (List.replicate n ' ')

mutual

/-- `JSON.stringify(v, null, 2)` at nesting level `ind` (indent is two
spaces per level). -/
def stringifyAt (ind : Nat) : Json → String
  | .null => "null"
  | .bool true => "true"
  | .bool false => "false"
  | .num n => intToString n
  | .str s => escapeJsonString s
  | .arr [] => "[]"
  | .arr (x :: xs) =>
    "[\n" ++ stringifyItems (ind + 1) x xs ++ "\n" ++ spacesN (2 * ind) ++ "]"
  | .obj [] => "{}"
  | .obj (kv :: kvs) =>
    "\x7b\n" ++ stringifyEntries (ind + 1) kv kvs ++ "\n" ++ spacesN (2 * ind) ++ "\x7d"
termination_by v => sizeOf v

/-- The comma-and-newline separated items of a pretty-printed array. -/
def stringifyItems (ind : Nat) (x : Json) (xs : List Json) : String :=
  match xs with
  | [] => spacesN (2 * ind) ++ stringifyAt ind x
  | y :: ys =>
    spacesN (2 * ind) ++ stringifyAt ind x ++ ",\n" ++ stringifyItems ind y ys
termination_by 1 + sizeOf x + sizeOf xs

/-- The comma-and-newline separated entries of a pretty-printed object. -/
def stringifyEntries (ind : Nat) (kv : String × Json) (kvs : List (String × Json)) : String :=
  match kvs with
  | [] => spacesN (2 * ind) ++ escapeJsonString kv.1 ++ ": " ++ stringifyAt ind kv.2
  | w :: ws =>
    spacesN (2 * ind) ++ escapeJsonString kv.1 ++ ": " ++ stringifyAt ind kv.2 ++
      ",\n" ++ stringifyEntries ind w ws
termination_by 1 + sizeOf kv + sizeOf kvs
decreasing_by
  all_goals obtain ⟨a, b⟩ := kv
  all_goals simp only [Prod.mk.sizeOf_spec, List.cons.sizeOf_spec]
  all_goals omega

end

/-- `JSON.stringify(v, null, 2)`. -/
def jsonStringifyPretty (v : Json) : String := stringifyAt 0 v

/-! ### The RPC dispatcher (`handleMcpRequest` in `server.js`) -/

/-- An inbound `POST /mcp` request: the JSON-RPC envelope fields and the
`authorization` header. -/
structure McpRequest where
  method : String
  params : Option Json
  id : Option Json
  authHeader : Option String
deriving Repr

/-- The HTTP response the dispatcher sends. -/
structure HttpResponse where
  status : Nat
  body : Json
deriving Repr, DecidableEq

/-- JS `s.startsWith(pre)` (transparent character-level model). -/
def strStartsWith (s pre : String) : Bool :=
  pre.data.isPrefixOf s.data

/-- `authHeader?.startsWith('Bearer ') ? authHeader.slice(7) : null`. -/
def extractAccessToken (authHeader : Option String) : Option String :=
  match authHeader with
  | some h => if strStartsWith h "Bearer " then some (h.drop 7) else none
  | none => none

/-- JS truthiness of the extracted token (`null` and the empty string are
falsy). -/
def tokenTruthy (t : Option String) : Bool :=
  match t with
  | some s => !s.isEmpty
  | none => false

/-- A JSON-RPC envelope; the `id` key is omitted when the request carried
none (as `JSON.stringify` drops an `undefined` id). -/
def rpcEnvelope (id : Option Json) (key : String) (payload : Json) : Json :=
  mkObj [("jsonrpc", some (.str "2.0")), ("id", id), (key, some payload)]

/-- `{ jsonrpc: '2.0', id, result }`. -/
def rpcResultEnv (id : Option Json) (result : Json) : Json :=
  rpcEnvelope id "result" result

/-- `{ jsonrpc: '2.0', id, error: { code, message } }`. -/
def rpcErrorEnv (id : Option Json) (code : Int) (message : String) : Json :=
  rpcEnvelope id "error" (.obj [("code", .num code), ("message", .str message)])

/-- The catch-block status mapping:
`error.message.includes('401') ? 401 : 500`. -/
def errorHttpStatus (message : String) : Nat :=
  if strIncludes message "401" then 401 else 500

/-- `handleMcpRequest(req, res)`: extracts the bearer token, dispatches on
the JSON-RPC method, and returns the HTTP response together with the trace
of upstream requests issued while serving it. -/
def handleMcpRequest (r : McpRequest) (u : Upstream) : HttpResponse × List ApiRequest :=
  let accessToken := extractAccessToken r.authHeader
  match r.method with
  | "initialize" =>
    if !(tokenTruthy accessToken) then
      (⟨401, rpcErrorEnv r.id (-32600)
        "OAuth authentication required. Please authenticate with Looker."⟩, [])
    else
      (⟨200, rpcResultEnv r.id (.obj [
        ("protocolVersion", .str "2025-06-18"),
        ("capabilities", .obj [("tools", .obj [("listChanged", .bool false)])]),
        ("serverInfo", .obj [
          ("name", .str "looker-oauth-proxy"),
          ("version", .str "2.0.0")])])⟩, [])
  | "notifications/initialized" => (⟨200, rpcResultEnv r.id (.obj [])⟩, [])
  | "ping" => (⟨200, rpcResultEnv r.id (.obj [])⟩, [])
  | "tools/list" =>
    (⟨200, rpcResultEnv r.id (.obj [("tools", .arr (tools.map toolToJson))])⟩, [])
  | "tools/call" =>
    if !(tokenTruthy accessToken) then
      (⟨401, rpcErrorEnv r.id (-32600) "OAuth authentication required"⟩, [])
    else
      let tok := (accessToken.getD "")
      let out : ApiOut Json :=
        match r.params with
        | none =>
          ⟨.error "Cannot read properties of undefined (reading name)", []⟩
        | some p =>
          match getField p "name" with
          | some (.str n) =>
            executeTool n (jsOr (getField p "arguments") (.obj [])) tok u
          | other => ⟨.error ("Unknown tool: " ++ jsToStringU other), []⟩
      match out.result with
      | .ok toolResult =>
        (⟨200, rpcResultEnv r.id (.obj [("content", .arr [.obj [
          ("type", .str "text"),
          ("text", .str (jsonStringifyPretty toolResult))]])])⟩, out.trace)
      | .error msg =>
        (⟨errorHttpStatus msg, rpcErrorEnv r.id (-32603) msg⟩, out.trace)
  | _ =>
    (⟨400, rpcErrorEnv r.id (-32601) ("Unknown method: " ++ r.method)⟩, [])

/-- The `GET /` liveness probe. -/
def handleRoot : HttpResponse :=
  ⟨200, .obj [
    ("status", .str "ok"),
    ("service", .str "looker-oauth-proxy"),
    ("version", .str "2.0.0"),
    ("tools_count", .num tools.length)]⟩

/-! ### `JSON.parse`

A recursive-descent JSON parser (integral numbers), used to state that the
serialized tool result in a `tools/call` response parses back to the value
the upstream returned.  The fuel argument bounds recursion depth; the
top-level entry point supplies `input length + 1`, which `jsonCost` below
shows is always sufficient for the output of `JSON.stringify`. -/

/-- JSON whitespace. -/
def isJsonWs (c : Char) : Bool :=
  c == ' ' || c == '\n' || c == '\t' || c == '\r'

/-- Drop leading JSON whitespace. -/
def skipWs : List Char → List Char
  | [] => []
  | c :: rest => if isJsonWs c then skipWs rest else c :: rest

/-- Value of a hex digit. -/
def hexVal (c : Char) : Option Nat :=
  if '0' ≤ c ∧ c ≤ '9' then some (c.toNat - 48)
  else if 'a' ≤ c ∧ c ≤ 'f' then some (c.toNat - 87)
  else if 'A' ≤ c ∧ c ≤ 'F' then some (c.toNat - 55)
  else none

/-- Unescaped character of a one-letter JSON escape sequence. -/
def unescapeChar (e : Char) : Option Char :=
  if e = '"' then some '"'
  else if e = '\\' then some '\\'
  else if e = '/' then some '/'
  else if e = 'b' then some (Char.ofNat 8)
  else if e = 'f' then some (Char.ofNat 12)
  else if e = 'n' then some (Char.ofNat 10)
  else if e = 'r' then some (Char.ofNat 13)
  else if e = 't' then some (Char.ofNat 9)
  else none

/-- Parse the body of a JSON string (after the opening quote), returning the
unescaped characters and the input after the closing quote. -/
def parseStringBody : List Char → Option (List Char × List Char)
  | [] => none
  | c :: rest =>
    if c = '"' then some ([], rest)
    else if c = '\\' then
      match rest with
      | [] => none
      | e :: rest2 =>
        if e = 'u' then
          match rest2 with
          | h1 :: h2 :: h3 :: h4 :: rest3 =>
            match hexVal h1, hexVal h2, hexVal h3, hexVal h4 with
            | some a, some b, some c3, some c4 =>
              (parseStringBody rest3).map
                (fun p => (Char.ofNat (((a * 16 + b) * 16 + c3) * 16 + c4) :: p.1, p.2))
            | _, _, _, _ => none
          | _ => none
        else
          match unescapeChar e with
          | some uc => (parseStringBody rest2).map (fun p => (uc :: p.1, p.2))
          | none => none
    else (parseStringBody rest).map (fun p => (c :: p.1, p.2))

/-- Value of a decimal digit character. -/
def digitVal (c : Char) : Nat := c.toNat - 48

/-- Split off the leading run of decimal digits. -/
def takeDigits : List Char → (List Char × List Char)
  | [] => ([], [])
  | c :: rest =>
    if c.isDigit then
      let p := takeDigits rest
      (c :: p.1, p.2)
    else ([], c :: rest)

/-- Decimal value of a digit list, most significant first. -/
def digitsToNat (ds : List Char) : Nat :=
  ds.foldl (fun acc c => acc * 10 + digitVal c) 0

/-- Parse a JSON integer. -/
def parseNumber (s : List Char) : Option (Json × List Char) :=
  if s.head? = some '-' then
    let p := takeDigits s.tail
    if p.1.isEmpty then none else some (.num (-(digitsToNat p.1 : Int)), p.2)
  else
    let p := takeDigits s
    if p.1.isEmpty then none else some (.num (digitsToNat p.1 : Int), p.2)

mutual

/-- Parse one JSON value (skipping leading whitespace). -/
def parseVal : Nat → List Char → Option (Json × List Char)
  | 0, _ => none
  | fuel + 1, s =>
    match skipWs s with
    | [] => none
    | c :: rest =>
      if c = '"' then
        (parseStringBody rest).map (fun p => (Json.str (String.mk p.1), p.2))
      else if c = 'n' then
        match rest with
        | 'u' :: 'l' :: 'l' :: r => some (.null, r)
        | _ => none
      else if c = 't' then
        match rest with
        | 'r' :: 'u' :: 'e' :: r => some (.bool true, r)
        | _ => none
      else if c = 'f' then
        match rest with
        | 'a' :: 'l' :: 's' :: 'e' :: r => some (.bool false, r)
        | _ => none
      else if c = '[' then
        let r1 := skipWs rest
        if r1.head? = some ']' then some (.arr [], r1.tail)
        else (parseElems fuel r1).map (fun p => (Json.arr p.1, p.2))
      else if c = '{' then
        let r1 := skipWs rest
        if r1.head? = some '}' then some (.obj [], r1.tail)
        else (parseMembers fuel r1).map (fun p => (Json.obj p.1, p.2))
      else if c.isDigit || c = '-' then parseNumber (c :: rest)
      else none

/-- Parse the elements of a nonempty JSON array (after the opening
bracket). -/
def parseElems : Nat → List Char → Option (List Json × List Char)
  | 0, _ => none
  | fuel + 1, s =>
    match parseVal fuel s with
    | none => none
    | some (v, r) =>
      let r1 := skipWs r
      if r1.head? = some ',' then
        (parseElems fuel r1.tail).map (fun p => (v :: p.1, p.2))
      else if r1.head? = some ']' then some ([v], r1.tail)
      else none

/-- Parse the members of a nonempty JSON object (after the opening
brace). -/
def parseMembers : Nat → List Char → Option (List (String × Json) × List Char)
  | 0, _ => none
  | fuel + 1, s =>
    match skipWs s with
    | [] => none
    | c :: rest =>
      if c = '"' then
        match parseStringBody rest with
        | none => none
        | some (k, r) =>
          let r1 := skipWs r
          if r1.head? = some ':' then
            match parseVal fuel r1.tail with
            | none => none
            | some (v, r2) =>
              let r3 := skipWs r2
              if r3.head? = some ',' then
                (parseMembers fuel r3.tail).map
                  (fun p => ((String.mk k, v) :: p.1, p.2))
              else if r3.head? = some '}' then some ([(String.mk k, v)], r3.tail)
              else none
          else none
      else none

end

/-- `JSON.parse`: parse a whole string as one JSON value (with nothing but
whitespace after it). -/
def jsonParse (s : String) : Option Json :=
  match parseVal (s.length + 1) s.data with
  | some (v, rest) => if (skipWs rest).isEmpty then some v else none
  | none => none

/-! ### Round trip: `jsonParse` inverts `jsonStringifyPretty` -/

/-- What may legitimately follow a serialized value: nothing, or a
non-digit character (so that number parsing stops at the right place). -/
def restOk : List Char → Prop
  | [] => True
  | c :: _ => c.isDigit = false

theorem skipWs_ws_append {lws : List Char} (s : List Char)
    (h : ∀ c ∈ lws, isJsonWs c = true) : skipWs (lws ++ s) = skipWs s := by
  induction lws with
  | nil => rfl
  | cons c cs ih =>
    have hc := h c (by simp)
    simp only [List.cons_append, skipWs, hc, if_true]
    exact ih (fun x hx => h x (by simp [hx]))

theorem skipWs_cons_not_ws {c : Char} (s : List Char)
    (h : isJsonWs c = false) : skipWs (c :: s) = c :: s := by
  simp [skipWs, h]

theorem isJsonWs_replicate_space {n : Nat} :
    ∀ c ∈ List.replicate n ' ', isJsonWs c = true := by
  intro c hc
  rw [List.eq_of_mem_replicate hc]
  decide

theorem digit_char_facts {c : Char} (h : c.isDigit = true) :
    c ≠ '"' ∧ c ≠ 'n' ∧ c ≠ 't' ∧ c ≠ 'f' ∧ c ≠ '[' ∧ c ≠ '{' ∧
      c ≠ '-' ∧ c ≠ ']' ∧ c ≠ '}' ∧ isJsonWs c = false := by
  refine ⟨?_, ?_, ?_, ?_, ?_, ?_, ?_, ?_, ?_, ?_⟩
  all_goals first
    | (intro hEq; rw [hEq] at h; exact absurd h (by decide))
    | (rw [Bool.eq_false_iff]
       intro hw
       simp only [isJsonWs, Bool.or_eq_true, beq_iff_eq] at hw
       rcases hw with ((hw | hw) | hw) | hw <;> rw [hw] at h <;> exact absurd h (by decide))

theorem natToChars_ne_nil (n : Nat) : natToChars n ≠ [] := by
  rw [natToChars]
  split
  · simp
  · simp

theorem natToChars_all_digits (n : Nat) : ∀ c ∈ natToChars n, c.isDigit = true := by
  induction n using Nat.strong_induction_on with
  | _ n ih =>
    intro c hc
    rw [natToChars] at hc
    split at hc
    · next h =>
      simp only [List.mem_singleton] at hc
      subst hc
      interval_cases n <;> decide
    · next h =>
      simp only [List.mem_append, List.mem_singleton] at hc
      rcases hc with hc | hc
      · exact ih (n / 10) (Nat.div_lt_self (by omega) (by omega)) c hc
      · subst hc
        have h10 : n % 10 < 10 := Nat.mod_lt _ (by omega)
        have hall : ∀ m, m < 10 → (Char.ofNat (48 + m)).isDigit = true := by decide
        exact hall _ h10

theorem natToChars_head (n : Nat) :
    ∃ c cs, natToChars n = c :: cs ∧ c.isDigit = true := by
  cases h : natToChars n with
  | nil => exact absurd h (natToChars_ne_nil n)
  | cons c cs =>
    exact ⟨c, cs, rfl, natToChars_all_digits n c (by rw [h]; simp)⟩

theorem takeDigits_append {ds : List Char} (rest : List Char)
    (hds : ∀ c ∈ ds, c.isDigit = true) (hrest : restOk rest) :
    takeDigits (ds ++ rest) = (ds, rest) := by
  induction ds with
  | nil =>
    cases rest with
    | nil => rfl
    | cons c cs =>
      simp only [restOk] at hrest
      simp [takeDigits, hrest]
  | cons c cs ih =>
    have hc := hds c (by simp)
    simp only [List.cons_append, takeDigits, hc, if_true, List.append_eq]
    rw [ih (fun x hx => hds x (by simp [hx]))]

theorem digitsToNat_append_singleton (a : List Char) (c : Char) :
    digitsToNat (a ++ [c]) = 10 * digitsToNat a + digitVal c := by
  simp only [digitsToNat, List.foldl_append, List.foldl_cons, List.foldl_nil]
  omega

theorem digitsToNat_natToChars (n : Nat) : digitsToNat (natToChars n) = n := by
  induction n using Nat.strong_induction_on with
  | _ n ih =>
    rw [natToChars]
    split
    · next h =>
      interval_cases n <;> decide
    · next h =>
      rw [digitsToNat_append_singleton, ih (n / 10) (Nat.div_lt_self (by omega) (by omega))]
      have h10 : n % 10 < 10 := Nat.mod_lt _ (by omega)
      have : digitVal (Char.ofNat (48 + n % 10)) = n % 10 := by
        interval_cases hm : n % 10 <;> simp_all <;> decide
      omega

theorem takeDigits_natToChars (a : Nat) (rest : List Char) (hrest : restOk rest) :
    takeDigits (natToChars a ++ rest) = (natToChars a, rest) :=
  takeDigits_append rest (natToChars_all_digits a) hrest

theorem parseNumber_intToString (n : Int) (rest : List Char) (hrest : restOk rest) :
    parseNumber ((intToString n).data ++ rest) = some (.num n, rest) := by
  by_cases hn : n < 0
  · have hdata : (intToString n).data = '-' :: natToChars n.natAbs := by
      simp only [intToString, if_pos hn, String.data_append]
      rfl
    have habs : -((n.natAbs : Int)) = n := by omega
    rw [hdata, List.cons_append]
    simp only [parseNumber, List.head?_cons, List.tail_cons,
      takeDigits_natToChars n.natAbs rest hrest, List.isEmpty_iff,
      digitsToNat_natToChars, habs]
    try simp [natToChars_ne_nil]
  · have hdata : (intToString n).data = natToChars n.natAbs := by
      rw [intToString, if_neg hn]
    have habs : ((n.natAbs : Int)) = n := by omega
    obtain ⟨c, cs, hcs, hdig⟩ := natToChars_head n.natAbs
    have hne : c ≠ '-' := (digit_char_facts hdig).2.2.2.2.2.2.1
    rw [hdata, hcs, List.cons_append]
    simp only [parseNumber, List.head?_cons]
    rw [if_neg (by simp [hne])]
    rw [← List.cons_append, ← hcs,
      takeDigits_natToChars n.natAbs rest hrest]
    simp [natToChars_ne_nil, digitsToNat_natToChars, habs]

theorem hexVal_hexDigitLower : ∀ k, k < 16 → hexVal (hexDigitLower k) = some k := by
  decide

theorem parseStringBody_escChars (cs rest : List Char) :
    parseStringBody (escChars cs ++ '"' :: rest) = some (cs, rest) := by
  induction cs with
  | nil =>
    unfold parseStringBody
    simp [escChars]
  | cons c cs ih =>
    rw [escChars, List.append_assoc]
    by_cases h1 : c = '"'
    · subst h1
      unfold parseStringBody
      simp [escChar, unescapeChar, ih]
    · by_cases h2 : c = '\\'
      · subst h2
        unfold parseStringBody
        simp [escChar, unescapeChar, ih]
      · by_cases h3 : c.toNat = 8
        · have hc : c = Char.ofNat 8 := by rw [← h3, Char.ofNat_toNat]
          subst hc
          unfold parseStringBody
          simp [escChar, unescapeChar, ih]
        · by_cases h4 : c.toNat = 9
          · have hc : c = Char.ofNat 9 := by rw [← h4, Char.ofNat_toNat]
            subst hc
            unfold parseStringBody
            simp [escChar, unescapeChar, ih]
          · by_cases h5 : c.toNat = 10
            · have hc : c = Char.ofNat 10 := by rw [← h5, Char.ofNat_toNat]
              subst hc
              unfold parseStringBody
              simp [escChar, unescapeChar, ih]
            · by_cases h6 : c.toNat = 12
              · have hc : c = Char.ofNat 12 := by rw [← h6, Char.ofNat_toNat]
                subst hc
                unfold parseStringBody
                simp [escChar, unescapeChar, ih]
              · by_cases h7 : c.toNat = 13
                · have hc : c = Char.ofNat 13 := by rw [← h7, Char.ofNat_toNat]
                  subst hc
                  unfold parseStringBody
                  simp [escChar, unescapeChar, ih]
                · by_cases h8 : c.toNat < 32
                  · rw [escChar, if_neg h1, if_neg h2, if_neg h3, if_neg h4,
                      if_neg h5, if_neg h6, if_neg h7, if_pos h8]
                    have hdiv : c.toNat / 16 < 16 := by omega
                    have hmod : c.toNat % 16 < 16 := by omega
                    have hval : c.toNat / 16 * 16 + c.toNat % 16 = c.toNat := by omega
                    simp only [String.data_append]
                    show parseStringBody ('\\' :: 'u' :: '0' :: '0' ::
                      hexDigitLower (c.toNat / 16) :: hexDigitLower (c.toNat % 16) ::
                      (escChars cs ++ '"' :: rest)) = _
                    unfold parseStringBody
                    have hz : hexVal '0' = some 0 := by decide
                    simp only [hz, hexVal_hexDigitLower _ hdiv, hexVal_hexDigitLower _ hmod]
                    simp [ih]
                    rw [hval, Char.ofNat_toNat]
                  · rw [escChar, if_neg h1, if_neg h2, if_neg h3, if_neg h4,
                      if_neg h5, if_neg h6, if_neg h7, if_neg h8]
                    show parseStringBody (c :: (escChars cs ++ '"' :: rest)) = _
                    unfold parseStringBody
                    simp [h1, h2, ih]

mutual

/-- Fuel sufficient for `parseVal` to parse a serialized value. -/
def jsonCost : Json → Nat
  | .arr [] => 1
  | .arr (x :: xs) => 1 + elemsCost x xs
  | .obj [] => 1
  | .obj (kv :: kvs) => 1 + membersCost kv kvs
  | _ => 1
termination_by v => sizeOf v

/-- Fuel sufficient for `parseElems` on a nonempty item list. -/
def elemsCost (x : Json) (xs : List Json) : Nat :=
  match xs with
  | [] => 1 + jsonCost x
  | y :: ys => 1 + max (jsonCost x) (elemsCost y ys)
termination_by 1 + sizeOf x + sizeOf xs

/-- Fuel sufficient for `parseMembers` on a nonempty entry list. -/
def membersCost (kv : String × Json) (kvs : List (String × Json)) : Nat :=
  match kvs with
  | [] => 1 + jsonCost kv.2
  | w :: ws => 1 + max (jsonCost kv.2) (membersCost w ws)
termination_by 1 + sizeOf kv + sizeOf kvs
decreasing_by
  all_goals obtain ⟨a, b⟩ := kv
  all_goals simp only [Prod.mk.sizeOf_spec, List.cons.sizeOf_spec]
  all_goals omega

end

/-- The characters a pretty-printed array emits after its first item:
`,\n`, indentation and the serialized item, for each remaining item. -/
def itemsTail (ind : Nat) : List Json → List Char
  | [] => []
  | y :: ys =>
    ',' :: '\n' :: (List.replicate (2 * ind) ' ' ++
      ((stringifyAt ind y).data ++ itemsTail ind ys))

/-- The characters a pretty-printed object emits after its first entry. -/
def entriesTail (ind : Nat) : List (String × Json) → List Char
  | [] => []
  | w :: ws =>
    ',' :: '\n' :: (List.replicate (2 * ind) ' ' ++
      ('"' :: (escChars w.1.data ++ '"' :: ':' :: ' ' ::
        ((stringifyAt ind w.2).data ++ entriesTail ind ws))))

theorem escapeJsonString_data (s : String) :
    (escapeJsonString s).data = '"' :: (escChars s.data ++ ['"']) := by
  simp [escapeJsonString, String.data_append]

theorem stringifyItems_data (ind : Nat) (x : Json) (xs : List Json) :
    (stringifyItems ind x xs).data
      = List.replicate (2 * ind) ' ' ++ ((stringifyAt ind x).data ++ itemsTail ind xs) := by
  induction xs generalizing x with
  | nil =>
    rw [stringifyItems]
    simp [itemsTail, String.data_append, spacesN]
  | cons y ys ih =>
    rw [stringifyItems]
    simp [itemsTail, String.data_append, spacesN, ih]

theorem stringifyEntries_data (ind : Nat) (kv : String × Json)
    (kvs : List (String × Json)) :
    (stringifyEntries ind kv kvs).data
      = List.replicate (2 * ind) ' ' ++
        ('"' :: (escChars kv.1.data ++ '"' :: ':' :: ' ' ::
          ((stringifyAt ind kv.2).data ++ entriesTail ind kvs))) := by
  induction kvs generalizing kv with
  | nil =>
    rw [stringifyEntries]
    simp [entriesTail, String.data_append, spacesN, escapeJsonString_data]
  | cons w ws ih =>
    rw [stringifyEntries]
    simp [entriesTail, String.data_append, spacesN, escapeJsonString_data, ih]

theorem stringifyAt_arr_cons_data (d : Nat) (x : Json) (xs : List Json) :
    (stringifyAt d (.arr (x :: xs))).data
      = '[' :: '\n' :: (List.replicate (2 * (d + 1)) ' ' ++
          ((stringifyAt (d + 1) x).data ++ (itemsTail (d + 1) xs ++
            '\n' :: (List.replicate (2 * d) ' ' ++ [']'])))) := by
  rw [stringifyAt]
  simp [stringifyItems_data, String.data_append, spacesN]

theorem stringifyAt_obj_cons_data (d : Nat) (kv : String × Json)
    (kvs : List (String × Json)) :
    (stringifyAt d (.obj (kv :: kvs))).data
      = '{' :: '\n' :: (List.replicate (2 * (d + 1)) ' ' ++
          ('"' :: (escChars kv.1.data ++ '"' :: ':' :: ' ' ::
            ((stringifyAt (d + 1) kv.2).data ++ (entriesTail (d + 1) kvs ++
              '\n' :: (List.replicate (2 * d) ' ' ++ ['}'])))))) := by
  rw [stringifyAt]
  simp [stringifyEntries_data, String.data_append, spacesN]

/-- Every serialized value starts with a non-whitespace character that is
not a closing bracket. -/
theorem stringify_head (d : Nat) (v : Json) :
    ∃ c cs, (stringifyAt d v).data = c :: cs ∧ isJsonWs c = false ∧
      c ≠ ']' ∧ c ≠ '}' := by
  cases v with
  | null =>
    refine ⟨'n', ['u', 'l', 'l'], ?_, by decide, by decide, by decide⟩
    rw [stringifyAt]
  | bool b => cases b with
    | true =>
      refine ⟨'t', ['r', 'u', 'e'], ?_, by decide, by decide, by decide⟩
      rw [stringifyAt]
    | false =>
      refine ⟨'f', ['a', 'l', 's', 'e'], ?_, by decide, by decide, by decide⟩
      rw [stringifyAt]
  | num n =>
    by_cases hn : n < 0
    · refine ⟨'-', natToChars n.natAbs, ?_, by decide, by decide, by decide⟩
      rw [stringifyAt]
      simp only [intToString, if_pos hn, String.data_append]
      rfl
    · obtain ⟨c, cs, hcs, hdig⟩ := natToChars_head n.natAbs
      have hf := digit_char_facts hdig
      refine ⟨c, cs, ?_, hf.2.2.2.2.2.2.2.2.2, hf.2.2.2.2.2.2.2.1, hf.2.2.2.2.2.2.2.2.1⟩
      rw [stringifyAt]
      rw [intToString, if_neg hn]
      exact hcs
  | str s =>
    refine ⟨'"', escChars s.data ++ ['"'], ?_, by decide, by decide, by decide⟩
    rw [stringifyAt]
    exact escapeJsonString_data s
  | arr xs =>
    cases xs with
    | nil =>
      refine ⟨'[', [']'], ?_, by decide, by decide, by decide⟩
      rw [stringifyAt]
    | cons x xs =>
      exact ⟨'[', _, stringifyAt_arr_cons_data d x xs, by decide, by decide, by decide⟩
  | obj kvs =>
    cases kvs with
    | nil =>
      refine ⟨'{', ['}'], ?_, by decide, by decide, by decide⟩
      rw [stringifyAt]
    | cons kv kvs =>
      exact ⟨'{', _, stringifyAt_obj_cons_data d kv kvs, by decide, by decide, by decide⟩

theorem skipWs_nl_replicate (cl : Nat) (c : Char) (l : List Char)
    (hc : isJsonWs c = false) :
    skipWs ('\n' :: (List.replicate cl ' ' ++ (c :: l))) = c :: l := by
  have h1 : skipWs ('\n' :: (List.replicate cl ' ' ++ (c :: l)))
      = skipWs (List.replicate cl ' ' ++ (c :: l)) := by
    rw [skipWs, if_pos (by decide : isJsonWs '\n' = true)]
  rw [h1, skipWs_ws_append _ isJsonWs_replicate_space, skipWs_cons_not_ws _ hc]

theorem restOk_cons {c : Char} {l : List Char} (h : c.isDigit = false) :
    restOk (c :: l) := h

/-- The parse-side property a value must satisfy for the list lemmas: its
serialization at any depth, after any whitespace, parses back. -/
def RoundTrips (z : Json) : Prop :=
  ∀ (f d : Nat) (lws rest : List Char), jsonCost z ≤ f →
    (∀ c ∈ lws, isJsonWs c = true) → restOk rest →
    parseVal f (lws ++ ((stringifyAt d z).data ++ rest)) = some (z, rest)

theorem parseElems_round (ind : Nat) :
    ∀ (xs : List Json) (x : Json), (∀ z ∈ x :: xs, RoundTrips z) →
      ∀ (f cl : Nat) (lws rest2 : List Char), elemsCost x xs ≤ f →
      (∀ c ∈ lws, isJsonWs c = true) →
      parseElems f (lws ++ ((stringifyAt ind x).data ++ (itemsTail ind xs ++
        '\n' :: (List.replicate cl ' ' ++ (']' :: rest2))))) = some (x :: xs, rest2) := by
  intro xs
  induction xs with
  | nil =>
    intro x IH f cl lws rest2 hf hlws
    rw [elemsCost] at hf
    obtain ⟨f', rfl⟩ : ∃ f', f = f' + 1 := ⟨f - 1, by omega⟩
    rw [parseElems]
    rw [itemsTail, List.nil_append]
    have hx := IH x (by simp) f' ind lws
      ('\n' :: (List.replicate cl ' ' ++ (']' :: rest2)))
      (by omega) hlws (restOk_cons (by decide))
    rw [hx]
    dsimp only
    rw [skipWs_nl_replicate _ _ _ (by decide)]
    simp
  | cons y ys ih =>
    intro x IH f cl lws rest2 hf hlws
    rw [elemsCost] at hf
    obtain ⟨f', rfl⟩ : ∃ f', f = f' + 1 := ⟨f - 1, by omega⟩
    rw [parseElems]
    rw [itemsTail]
    have hx := IH x (by simp) f' ind lws
      (',' :: '\n' :: (List.replicate (2 * ind) ' ' ++
        ((stringifyAt ind y).data ++ itemsTail ind ys)) ++
        '\n' :: (List.replicate cl ' ' ++ (']' :: rest2)))
      (by omega) hlws (restOk_cons (by decide))
    simp only [List.cons_append, List.append_assoc] at hx ⊢
    rw [hx]
    dsimp only
    rw [skipWs_cons_not_ws _ (by decide)]
    simp only [List.head?_cons, List.tail_cons, if_true]
    have hy := ih y (fun z hz => IH z (by simp at hz ⊢; tauto)) f' cl
      ('\n' :: List.replicate (2 * ind) ' ') rest2 (by omega)
      (by
        intro c hc
        simp only [List.mem_cons, List.mem_replicate] at hc
        rcases hc with hc | hc
        · rw [hc]; decide
        · rw [hc.2]; decide)
    simp only [List.cons_append, List.append_assoc] at hy
    rw [hy]
    rfl

theorem String.mk_data_eq (s : String) : String.mk s.data = s := by
  cases s
  rfl

theorem parseMembers_round (ind : Nat) :
    ∀ (kvs : List (String × Json)) (kv : String × Json),
      (∀ z ∈ kv :: kvs, RoundTrips (Prod.snd z)) →
      ∀ (f cl : Nat) (lws rest2 : List Char), membersCost kv kvs ≤ f →
      (∀ c ∈ lws, isJsonWs c = true) →
      parseMembers f (lws ++ ('"' :: (escChars kv.1.data ++ '"' :: ':' :: ' ' ::
        ((stringifyAt ind kv.2).data ++ (entriesTail ind kvs ++
          '\n' :: (List.replicate cl ' ' ++ ('}' :: rest2)))))))
        = some (kv :: kvs, rest2) := by
  intro kvs
  induction kvs with
  | nil =>
    intro kv IH f cl lws rest2 hf hlws
    obtain ⟨ks, kvv⟩ := kv
    rw [membersCost] at hf
    obtain ⟨f', rfl⟩ : ∃ f', f = f' + 1 := ⟨f - 1, by omega⟩
    rw [parseMembers]
    rw [skipWs_ws_append _ hlws, skipWs_cons_not_ws _ (by decide)]
    dsimp only
    rw [if_pos rfl]
    rw [entriesTail, List.nil_append]
    rw [parseStringBody_escChars]
    dsimp only
    rw [skipWs_cons_not_ws _ (by decide)]
    simp only [List.head?_cons, List.tail_cons, if_true]
    have hx := IH (ks, kvv) (by simp) f' ind [' ']
      ('\n' :: (List.replicate cl ' ' ++ ('}' :: rest2)))
      (by simp at hf ⊢; omega)
      (by intro c hc; simp at hc; rw [hc]; decide)
      (restOk_cons (by decide))
    simp only [List.cons_append, List.nil_append] at hx
    rw [hx]
    dsimp only
    rw [skipWs_nl_replicate _ _ _ (by decide)]
    simp [String.mk_data_eq]
  | cons w ws ih =>
    intro kv IH f cl lws rest2 hf hlws
    obtain ⟨ks, kvv⟩ := kv
    rw [membersCost] at hf
    obtain ⟨f', rfl⟩ : ∃ f', f = f' + 1 := ⟨f - 1, by omega⟩
    rw [parseMembers]
    rw [skipWs_ws_append _ hlws, skipWs_cons_not_ws _ (by decide)]
    dsimp only
    rw [if_pos rfl]
    rw [entriesTail]
    rw [parseStringBody_escChars]
    dsimp only
    rw [skipWs_cons_not_ws _ (by decide)]
    simp only [List.head?_cons, List.tail_cons, if_true]
    have hx := IH (ks, kvv) (by simp) f' ind [' ']
      (',' :: '\n' :: (List.replicate (2 * ind) ' ' ++
        ('"' :: (escChars w.1.data ++ '"' :: ':' :: ' ' ::
          ((stringifyAt ind w.2).data ++ entriesTail ind ws)))) ++
        '\n' :: (List.replicate cl ' ' ++ ('}' :: rest2)))
      (by simp at hf ⊢; omega)
      (by intro c hc; simp at hc; rw [hc]; decide)
      (restOk_cons (by decide))
    simp only [List.cons_append, List.nil_append, List.append_assoc] at hx ⊢
    rw [hx]
    dsimp only
    rw [skipWs_cons_not_ws _ (by decide)]
    simp only [List.head?_cons, List.tail_cons, if_true]
    have hy := ih w (fun z hz => IH z (by simp at hz ⊢; tauto)) f' cl
      ('\n' :: List.replicate (2 * ind) ' ') rest2
      (by simp at hf ⊢; omega)
      (by
        intro c hc
        simp only [List.mem_cons, List.mem_replicate] at hc
        rcases hc with hc | hc
        · rw [hc]; decide
        · rw [hc.2]; decide)
    simp only [List.cons_append, List.append_assoc] at hy
    rw [hy]
    simp [String.mk_data_eq]

theorem parseVal_stringify : ∀ v : Json, RoundTrips v := by
  intro v
  induction v using Json.inductionOn with
  | hnull =>
    intro f d lws rest hf hlws hrest
    simp only [jsonCost] at hf
    obtain ⟨f', rfl⟩ : ∃ f', f = f' + 1 := ⟨f - 1, by omega⟩
    rw [parseVal, stringifyAt]
    have hdata : ("null" : String).data ++ rest = 'n' :: 'u' :: 'l' :: 'l' :: rest := rfl
    rw [hdata, skipWs_ws_append _ hlws, skipWs_cons_not_ws _ (by decide)]
    simp
  | hbool b =>
    intro f d lws rest hf hlws hrest
    simp only [jsonCost] at hf
    obtain ⟨f', rfl⟩ : ∃ f', f = f' + 1 := ⟨f - 1, by omega⟩
    cases b with
    | true =>
      rw [parseVal, stringifyAt]
      have hdata : ("true" : String).data ++ rest = 't' :: 'r' :: 'u' :: 'e' :: rest := rfl
      rw [hdata, skipWs_ws_append _ hlws, skipWs_cons_not_ws _ (by decide)]
      simp
    | false =>
      rw [parseVal, stringifyAt]
      have hdata : ("false" : String).data ++ rest
        = 'f' :: 'a' :: 'l' :: 's' :: 'e' :: rest := rfl
      rw [hdata, skipWs_ws_append _ hlws, skipWs_cons_not_ws _ (by decide)]
      simp
  | hnum n =>
    intro f d lws rest hf hlws hrest
    simp only [jsonCost] at hf
    obtain ⟨f', rfl⟩ : ∃ f', f = f' + 1 := ⟨f - 1, by omega⟩
    rw [parseVal, stringifyAt]
    by_cases hn : n < 0
    · have hdata : (intToString n).data = '-' :: natToChars n.natAbs := by
        simp only [intToString, if_pos hn, String.data_append]
        rfl
      rw [hdata, List.cons_append,
        skipWs_ws_append _ hlws, skipWs_cons_not_ws _ (by decide)]
      dsimp only
      rw [if_neg (by decide), if_neg (by decide), if_neg (by decide),
        if_neg (by decide), if_neg (by decide), if_neg (by decide),
        if_pos (by decide)]
      rw [← List.cons_append, ← hdata]
      exact parseNumber_intToString n rest hrest
    · have hdata : (intToString n).data = natToChars n.natAbs := by
        rw [intToString, if_neg hn]
      obtain ⟨c, cs, hcs, hdig⟩ := natToChars_head n.natAbs
      have hfacts := digit_char_facts hdig
      rw [hdata, hcs, List.cons_append,
        skipWs_ws_append _ hlws,
        skipWs_cons_not_ws _ hfacts.2.2.2.2.2.2.2.2.2]
      dsimp only
      rw [if_neg hfacts.1, if_neg hfacts.2.1, if_neg hfacts.2.2.1,
        if_neg hfacts.2.2.2.1, if_neg hfacts.2.2.2.2.1, if_neg hfacts.2.2.2.2.2.1,
        if_pos (by simp [hdig])]
      rw [← List.cons_append, ← hcs, ← hdata]
      exact parseNumber_intToString n rest hrest
  | hstr s =>
    intro f d lws rest hf hlws hrest
    simp only [jsonCost] at hf
    obtain ⟨f', rfl⟩ : ∃ f', f = f' + 1 := ⟨f - 1, by omega⟩
    rw [parseVal, stringifyAt, escapeJsonString_data]
    simp only [List.cons_append, List.nil_append, List.append_assoc]
    rw [skipWs_ws_append _ hlws, skipWs_cons_not_ws _ (by decide)]
    dsimp only
    rw [if_pos rfl]
    have hone : (['"'] : List Char) ++ rest = '"' :: rest := rfl
    rw [parseStringBody_escChars]
    simp [String.mk_data_eq]
  | harr xs hP =>
    cases xs with
    | nil =>
      intro f d lws rest hf hlws hrest
      simp only [jsonCost] at hf
      obtain ⟨f', rfl⟩ : ∃ f', f = f' + 1 := ⟨f - 1, by omega⟩
      rw [parseVal, stringifyAt]
      have hdata : ("[]" : String).data ++ rest = '[' :: ']' :: rest := rfl
      rw [hdata, skipWs_ws_append _ hlws, skipWs_cons_not_ws _ (by decide)]
      dsimp only
      rw [if_neg (by decide), if_neg (by decide), if_neg (by decide),
        if_neg (by decide), if_pos rfl]
      rw [skipWs_cons_not_ws _ (by decide)]
      simp
    | cons x xs =>
      intro f d lws rest hf hlws hrest
      simp only [jsonCost] at hf
      obtain ⟨f', rfl⟩ : ∃ f', f = f' + 1 := ⟨f - 1, by omega⟩
      rw [parseVal, stringifyAt_arr_cons_data]
      simp only [List.cons_append, List.nil_append, List.append_assoc]
      rw [skipWs_ws_append _ hlws, skipWs_cons_not_ws _ (by decide)]
      dsimp only
      rw [if_neg (by decide), if_neg (by decide), if_neg (by decide),
        if_neg (by decide), if_pos rfl]
      obtain ⟨c, cs, hcdata, hcws, hcne, _⟩ := stringify_head (d + 1) x
      rw [hcdata, List.cons_append, skipWs_nl_replicate _ _ _ hcws]
      rw [List.head?_cons]
      rw [if_neg (by simp [hcne])]
      rw [← List.cons_append, ← hcdata]
      have he := parseElems_round (d + 1) xs x hP f' (2 * d) [] rest
        (by omega) (by simp)
      simp only [List.nil_append, List.cons_append, List.append_assoc] at he
      rw [he]
      rfl
  | hobj kvs hP =>
    cases kvs with
    | nil =>
      intro f d lws rest hf hlws hrest
      simp only [jsonCost] at hf
      obtain ⟨f', rfl⟩ : ∃ f', f = f' + 1 := ⟨f - 1, by omega⟩
      rw [parseVal, stringifyAt]
      have hdata : ("{}" : String).data ++ rest = '{' :: '}' :: rest := rfl
      rw [hdata, skipWs_ws_append _ hlws, skipWs_cons_not_ws _ (by decide)]
      dsimp only
      rw [if_neg (by decide), if_neg (by decide), if_neg (by decide),
        if_neg (by decide), if_neg (by decide), if_pos rfl]
      rw [skipWs_cons_not_ws _ (by decide)]
      simp
    | cons kv kvs =>
      intro f d lws rest hf hlws hrest
      simp only [jsonCost] at hf
      obtain ⟨f', rfl⟩ : ∃ f', f = f' + 1 := ⟨f - 1, by omega⟩
      rw [parseVal, stringifyAt_obj_cons_data]
      simp only [List.cons_append, List.nil_append, List.append_assoc]
      rw [skipWs_ws_append _ hlws, skipWs_cons_not_ws _ (by decide)]
      dsimp only
      rw [if_neg (by decide), if_neg (by decide), if_neg (by decide),
        if_neg (by decide), if_neg (by decide), if_pos rfl]
      rw [skipWs_nl_replicate _ _ _ (by decide)]
      rw [List.head?_cons]
      rw [if_neg (by decide)]
      have hm := parseMembers_round (d + 1) kvs kv hP f' (2 * d) [] rest
        (by omega) (by simp)
      simp only [List.nil_append, List.cons_append, List.append_assoc] at hm
      rw [hm]
      rfl

theorem intToString_length_pos (n : Int) : 1 ≤ (intToString n).data.length := by
  by_cases hn : n < 0
  · have hdata : (intToString n).data = '-' :: natToChars n.natAbs := by
      simp only [intToString, if_pos hn, String.data_append]
      rfl
    rw [hdata]
    simp
  · have hdata : (intToString n).data = natToChars n.natAbs := by
      rw [intToString, if_neg hn]
    rw [hdata]
    exact List.length_pos.mpr (natToChars_ne_nil n.natAbs)

theorem elemsCost_le (ind : Nat) : ∀ (xs : List Json) (x : Json),
    (∀ z ∈ x :: xs, ∀ d, jsonCost z ≤ (stringifyAt d z).data.length) →
    elemsCost x xs ≤ (stringifyAt ind x).data.length + (itemsTail ind xs).length + 1 := by
  intro xs
  induction xs with
  | nil =>
    intro x IH
    rw [elemsCost, itemsTail]
    have hx := IH x (by simp) ind
    simp only [List.length_nil]
    omega
  | cons y ys ih =>
    intro x IH
    rw [elemsCost, itemsTail]
    have hx := IH x (by simp) ind
    have hy := ih y (fun z hz => IH z (by simp at hz ⊢; tauto))
    simp only [List.length_cons, List.length_append, List.length_replicate]
    omega

theorem membersCost_le (ind : Nat) : ∀ (kvs : List (String × Json)) (kv : String × Json),
    (∀ z ∈ kv :: kvs, ∀ d, jsonCost (Prod.snd z) ≤ (stringifyAt d (Prod.snd z)).data.length) →
    membersCost kv kvs
      ≤ (stringifyAt ind kv.2).data.length + (entriesTail ind kvs).length + 1 := by
  intro kvs
  induction kvs with
  | nil =>
    intro kv IH
    rw [membersCost, entriesTail]
    have hx := IH kv (by simp) ind
    simp only [List.length_nil]
    omega
  | cons w ws ih =>
    intro kv IH
    rw [membersCost, entriesTail]
    have hx := IH kv (by simp) ind
    have hy := ih w (fun z hz => IH z (by simp at hz ⊢; tauto))
    simp only [List.length_cons, List.length_append, List.length_replicate]
    omega

theorem jsonCost_le (v : Json) : ∀ d, jsonCost v ≤ (stringifyAt d v).data.length := by
  induction v using Json.inductionOn with
  | hnull =>
    intro d
    simp only [jsonCost]
    rw [stringifyAt]
    decide
  | hbool b =>
    intro d
    simp only [jsonCost]
    cases b <;> rw [stringifyAt] <;> decide
  | hnum n =>
    intro d
    simp only [jsonCost]
    rw [stringifyAt]
    exact intToString_length_pos n
  | hstr s =>
    intro d
    simp only [jsonCost]
    rw [stringifyAt]
    have hq := escapeJsonString_data s
    have hlen : 2 ≤ (escapeJsonString s).data.length := by
      rw [hq]
      simp only [List.length_cons, List.length_append, List.length_singleton]
      omega
    omega
  | harr xs hP =>
    intro d
    cases xs with
    | nil =>
      simp only [jsonCost]
      rw [stringifyAt]
      decide
    | cons x xs =>
      simp only [jsonCost]
      have he := elemsCost_le (d + 1) xs x hP
      have hlen : (stringifyAt (d + 1) x).data.length + (itemsTail (d + 1) xs).length + 2
          ≤ (stringifyAt d (.arr (x :: xs))).data.length := by
        rw [stringifyAt_arr_cons_data]
        simp only [List.length_cons, List.length_append, List.length_replicate,
          List.length_singleton]
        omega
      omega
  | hobj kvs hP =>
    intro d
    cases kvs with
    | nil =>
      simp only [jsonCost]
      rw [stringifyAt]
      decide
    | cons kv kvs =>
      simp only [jsonCost]
      have he := membersCost_le (d + 1) kvs kv hP
      have hlen : (stringifyAt (d + 1) kv.2).data.length + (entriesTail (d + 1) kvs).length + 2
          ≤ (stringifyAt d (.obj (kv :: kvs))).data.length := by
        rw [stringifyAt_obj_cons_data]
        simp only [List.length_cons, List.length_append, List.length_replicate,
          List.length_singleton]
        omega
      omega

/-- `JSON.parse` inverts `JSON.stringify(-, null, 2)`. -/
theorem jsonParse_stringify (v : Json) : jsonParse (jsonStringifyPretty v) = some v := by
  rw [jsonParse, jsonStringifyPretty]
  have hcost : jsonCost v ≤ (stringifyAt 0 v).length + 1 := by
    have h1 := jsonCost_le v 0
    have h2 : (stringifyAt 0 v).length = (stringifyAt 0 v).data.length := rfl
    omega
  have h := parseVal_stringify v ((stringifyAt 0 v).length + 1) 0 [] [] hcost
    (by simp) trivial
  simp only [List.nil_append, List.append_nil] at h
  rw [h]
  rfl

/-! ### Helper lemmas for the claim theorems -/

theorem isEmpty_false_of_ne {s : String} (h : ¬ s = "") : s.isEmpty = false := by
  rw [Bool.eq_false_iff]
  intro he
  exact h ((String.isEmpty_iff s).mp he)

theorem getField_mkObj_skip (k' : String) (v' : Option Json)
    (rest : List (String × Option Json)) (k : String) (h : (k' == k) = false) :
    getField (mkObj ((k', v') :: rest)) k = getField (mkObj rest) k := by
  cases v' <;> simp [mkObj, getField, h]

theorem getField_mkObj_hit (k : String) (w : Json)
    (rest : List (String × Option Json)) :
    getField (mkObj ((k, some w) :: rest)) k = some w := by
  simp [mkObj, getField]

/-- The per-element outcome `run_dashboard` records for a query-bearing
element: a `data` entry when the query run succeeds, an `error` entry
carrying the thrown message when it fails, both keyed by `element_id`. -/
def runDashboardEntrySpec (tok : String) (u : Upstream) (e : Json) : Json :=
  match u ⟨"GET", "/api/4.0/queries/" ++ jsToStringU (getField e "query_id") ++
      "/run/json", tok, none⟩ with
  | .okJson v =>
    mkObj [("element_id", getField e "id"), ("title", getField e "title"),
      ("data", some v)]
  | .okText s =>
    mkObj [("element_id", getField e "id"), ("title", getField e "title"),
      ("data", some (.str s))]
  | .err status text =>
    mkObj [("element_id", getField e "id"), ("title", getField e "title"),
      ("error", some (.str ("Looker API error " ++ toString status ++ ": " ++ text)))]

theorem runDashboardLoop_result (tok : String) (u : Upstream) :
    ∀ (xs acc : List Json),
      (runDashboardLoop tok xs acc u).result
        = .ok (.arr (acc ++
            (xs.filter (fun e => jsTruthyOpt (getField e "query_id"))).map
              (runDashboardEntrySpec tok u))) := by
  intro xs
  induction xs with
  | nil =>
    intro acc
    simp [runDashboardLoop, ApiM.pure]
  | cons e rest ih =>
    intro acc
    by_cases he : jsTruthyOpt (getField e "query_id") = true
    · rw [runDashboardLoop, if_pos he]
      cases hr : u ⟨"GET", "/api/4.0/queries/" ++ jsToStringU (getField e "query_id") ++
          "/run/json", tok, none⟩ with
      | okJson v =>
        simp only [ApiM.bind, attempt, lookerApiCall, hr]
        rw [ih]
        simp [List.filter_cons, he, runDashboardEntrySpec, hr]
      | okText s =>
        simp only [ApiM.bind, attempt, lookerApiCall, hr]
        rw [ih]
        simp [List.filter_cons, he, runDashboardEntrySpec, hr]
      | err status text =>
        simp only [ApiM.bind, attempt, lookerApiCall, hr]
        rw [ih]
        simp [List.filter_cons, he, runDashboardEntrySpec, hr]
    · rw [runDashboardLoop, if_neg he]
      rw [ih]
      simp at he
      simp [List.filter_cons, he]

/-! ### Claim theorems -/

/-- C6: on a non-success upstream status, `lookerApiCall` reads the body
text and throws an error whose message carries the numeric status and that
text; in particular, a mocked 404 on `GET /api/4.0/lookml_models` makes
`get_models` fail with a message containing "404". -/
theorem upstream_error_carries_status :
    (∀ (accessToken method path : String) (body : Option Json) (u : Upstream)
      (status : Nat) (text : String),
      u ⟨method, path, accessToken, body⟩ = .err status text →
      lookerApiCall accessToken method path body u
        = ⟨.error ("Looker API error " ++ toString status ++ ": " ++ text),
          [⟨method, path, accessToken, body⟩]⟩) ∧
    (∀ (args : Json) (tok : String) (u : Upstream) (text : String),
      ¬ tok = "" →
      u ⟨"GET", "/api/4.0/lookml_models", tok, none⟩ = .err 404 text →
      ∃ msg, (executeTool "get_models" args tok u).result = .error msg ∧
        strIncludes msg "404" = true) := by
  constructor
  · intro accessToken method path body u status text hu
    simp only [lookerApiCall, hu]
  · intro args tok u text htok hu
    refine ⟨"Looker API error " ++ toString (404 : Nat) ++ ": " ++ text, ?_, ?_⟩
    · simp [executeTool, isEmpty_false_of_ne htok, findHandler, executorHandlers,
        ApiM.bind_eq, ApiM.bind, lookerApiCall, hu]
    · exact strIncludes_append_left text (by decide)

/-- C6 witness. -/
theorem upstream_error_carries_status_witness :
    (¬ ("t" : String) = "") ∧
    ((fun r : ApiRequest => if r.path = "/api/4.0/lookml_models"
        then ApiResponse.err 404 "Not Found" else .okJson .null)
      ⟨"GET", "/api/4.0/lookml_models", "t", none⟩ = .err 404 "Not Found") ∧
    (∃ msg, (executeTool "get_models" (.obj []) "t"
        (fun r : ApiRequest => if r.path = "/api/4.0/lookml_models"
          then ApiResponse.err 404 "Not Found" else .okJson .null)).result
        = .error msg ∧ strIncludes msg "404" = true) :=
  ⟨by decide, by rfl,
    upstream_error_carries_status.2 (.obj []) "t" _ "Not Found" (by decide) (by rfl)⟩

/-- C7: a tool-invocation error surfaced through the dispatcher gets HTTP
status 401 exactly when the error message text carries the upstream
authorization indicator (the substring "401", the code's test for an
upstream auth failure), and 500 otherwise; messages produced by an
upstream 401 always carry it. -/
theorem error_status_mapping :
    (∀ msg : String, (errorHttpStatus msg = 401 ↔ strIncludes msg "401" = true) ∧
      (strIncludes msg "401" = false → errorHttpStatus msg = 500)) ∧
    (∀ text : String,
      strIncludes ("Looker API error " ++ toString (401 : Nat) ++ ": " ++ text)
        "401" = true) ∧
    (∀ (p : Json) (id : Option Json) (h : String) (u : Upstream) (n msg : String),
      strStartsWith h "Bearer " = true → ¬ h.drop 7 = "" →
      getField p "name" = some (.str n) →
      (executeTool n (jsOr (getField p "arguments") (.obj [])) (h.drop 7) u).result
        = .error msg →
      (handleMcpRequest ⟨"tools/call", some p, id, some h⟩ u).1
        = ⟨errorHttpStatus msg, rpcErrorEnv id (-32603) msg⟩) := by
  refine ⟨?_, ?_, ?_⟩
  · intro msg
    constructor
    · by_cases hm : strIncludes msg "401" = true <;> simp [errorHttpStatus, hm]
    · intro hm
      simp [errorHttpStatus, hm]
  · intro text
    exact strIncludes_append_left text (by decide)
  · intro p id h u n msg hpre hne hname hexec
    simp only [handleMcpRequest, extractAccessToken, if_pos hpre, tokenTruthy,
      isEmpty_false_of_ne hne, Bool.not_false, Bool.true_eq_false, if_false,
      Option.getD_some, hname, hexec, Bool.not_true]
    rfl

/-- C7 witness. -/
theorem error_status_mapping_witness :
    (strStartsWith "Bearer t" "Bearer " = true) ∧
    (¬ ("Bearer t" : String).drop 7 = "") ∧
    (getField (.obj [("name", Json.str "nope")]) "name" = some (.str "nope")) ∧
    ((executeTool "nope"
        (jsOr (getField (.obj [("name", Json.str "nope")]) "arguments") (.obj []))
        (("Bearer t" : String).drop 7) (fun _ => .okJson .null)).result
      = .error "Unknown tool: nope") ∧
    ((handleMcpRequest ⟨"tools/call", some (.obj [("name", Json.str "nope")]), none,
        some "Bearer t"⟩ (fun _ => .okJson .null)).1
      = ⟨errorHttpStatus "Unknown tool: nope",
          rpcErrorEnv none (-32603) "Unknown tool: nope"⟩) :=
  ⟨by decide, by decide, by rfl, by rfl,
    error_status_mapping.2.2 (.obj [("name", Json.str "nope")]) none "Bearer t"
      (fun _ => .okJson .null) "nope" "Unknown tool: nope"
      (by decide) (by decide) (by rfl) (by rfl)⟩

theorem intToString_ne_empty (n : Int) : ¬ intToString n = "" := by
  intro he
  have h1 := intToString_length_pos n
  rw [he] at h1
  simp at h1

/-- C8: `query` sends one POST to `/api/4.0/queries/run/json` whose body is
the built query object; an omitted `limit` becomes the string "500", a
numeric `limit` its decimal string, and omitted `filters`/`sorts`/`pivots`
default to empty. -/
theorem query_limit_defaults (args : Json) (tok : String) (u : Upstream) :
    (¬ tok = "" →
      (executeTool "query" args tok u).trace
        = [⟨"POST", "/api/4.0/queries/run/json", tok, some (buildQueryBody args)⟩]) ∧
    (getField args "limit" = none →
      getField (buildQueryBody args) "limit" = some (.str "500")) ∧
    (∀ n : Int, getField args "limit" = some (.num n) →
      getField (buildQueryBody args) "limit" = some (.str (intToString n))) ∧
    (getField args "filters" = none →
      getField (buildQueryBody args) "filters" = some (.obj [])) ∧
    (getField args "sorts" = none →
      getField (buildQueryBody args) "sorts" = some (.arr [])) ∧
    (getField args "pivots" = none →
      getField (buildQueryBody args) "pivots" = some (.arr [])) := by
  refine ⟨?_, ?_, ?_, ?_, ?_, ?_⟩
  · intro htok
    simp only [executeTool, isEmpty_false_of_ne htok, Bool.false_eq_true, if_false,
      findHandler, executorHandlers, List.find?]
    cases hr : u ⟨"POST", "/api/4.0/queries/run/json", tok, some (buildQueryBody args)⟩
      <;> simp [lookerApiCall, hr]
  · intro hl
    rw [buildQueryBody, getField_mkObj_skip _ _ _ _ (by decide),
      getField_mkObj_skip _ _ _ _ (by decide), getField_mkObj_skip _ _ _ _ (by decide),
      getField_mkObj_skip _ _ _ _ (by decide), getField_mkObj_skip _ _ _ _ (by decide),
      getField_mkObj_skip _ _ _ _ (by decide), getField_mkObj_hit]
    rw [hl]
    simp [optToStr, jsOrStr]
  · intro n hl
    rw [buildQueryBody, getField_mkObj_skip _ _ _ _ (by decide),
      getField_mkObj_skip _ _ _ _ (by decide), getField_mkObj_skip _ _ _ _ (by decide),
      getField_mkObj_skip _ _ _ _ (by decide), getField_mkObj_skip _ _ _ _ (by decide),
      getField_mkObj_skip _ _ _ _ (by decide), getField_mkObj_hit]
    rw [hl]
    simp [optToStr, jsOrStr, jsToString, isEmpty_false_of_ne (intToString_ne_empty n)]
  · intro hl
    rw [buildQueryBody, getField_mkObj_skip _ _ _ _ (by decide),
      getField_mkObj_skip _ _ _ _ (by decide), getField_mkObj_skip _ _ _ _ (by decide),
      getField_mkObj_hit]
    rw [hl]
    simp [jsOr]
  · intro hl
    rw [buildQueryBody, getField_mkObj_skip _ _ _ _ (by decide),
      getField_mkObj_skip _ _ _ _ (by decide), getField_mkObj_skip _ _ _ _ (by decide),
      getField_mkObj_skip _ _ _ _ (by decide), getField_mkObj_skip _ _ _ _ (by decide),
      getField_mkObj_hit]
    rw [hl]
    simp [jsOr]
  · intro hl
    rw [buildQueryBody, getField_mkObj_skip _ _ _ _ (by decide),
      getField_mkObj_skip _ _ _ _ (by decide), getField_mkObj_skip _ _ _ _ (by decide),
      getField_mkObj_skip _ _ _ _ (by decide), getField_mkObj_hit]
    rw [hl]
    simp [jsOr]

/-- C8 witness. -/
theorem query_limit_defaults_witness :
    (¬ ("t" : String) = "") ∧
    ((executeTool "query" (.obj []) "t" (fun _ => .okJson .null)).trace
      = [⟨"POST", "/api/4.0/queries/run/json", "t", some (buildQueryBody (.obj []))⟩]) ∧
    (getField (Json.obj []) "limit" = none) ∧
    (getField (buildQueryBody (.obj [])) "limit" = some (.str "500")) :=
  ⟨by decide,
    (query_limit_defaults (.obj []) "t" (fun _ => .okJson .null)).1 (by decide),
    by rfl,
    (query_limit_defaults (.obj []) "t" (fun _ => .okJson .null)).2.1 (by rfl)⟩

/-- C1: with a missing authorization header, a non-"Bearer " scheme, or an
empty token after the prefix, `initialize` and `tools/call` answer HTTP 401
with the AuthRequired JSON-RPC error (code -32600), while `ping` and
`tools/list` answer 200 with a result envelope on the same header. -/
theorem auth_gating (h : Option String) (params id : Option Json) (u : Upstream)
    (hbad : h = none ∨ ∀ s, h = some s →
      (strStartsWith s "Bearer " = false ∨ s.drop 7 = "")) :
    ((handleMcpRequest ⟨"initialize", params, id, h⟩ u).1
      = ⟨401, rpcErrorEnv id (-32600)
          "OAuth authentication required. Please authenticate with Looker."⟩) ∧
    ((handleMcpRequest ⟨"tools/call", params, id, h⟩ u).1
      = ⟨401, rpcErrorEnv id (-32600) "OAuth authentication required"⟩) ∧
    ((handleMcpRequest ⟨"ping", params, id, h⟩ u).1
      = ⟨200, rpcResultEnv id (.obj [])⟩) ∧
    ((handleMcpRequest ⟨"tools/list", params, id, h⟩ u).1
      = ⟨200, rpcResultEnv id (.obj [("tools", .arr (tools.map toolToJson))])⟩) := by
  have htok : tokenTruthy (extractAccessToken h) = false := by
    cases h with
    | none => rfl
    | some s =>
      rcases hbad with h1 | h2
      · exact absurd h1 (by simp)
      · rcases h2 s rfl with hsw | hdrop
        · simp [extractAccessToken, hsw, tokenTruthy]
        · by_cases hsw : strStartsWith s "Bearer " = true
          · simp [extractAccessToken, hsw, tokenTruthy, hdrop]
            exact (String.isEmpty_iff "").mpr rfl
          · simp at hsw
            simp [extractAccessToken, hsw, tokenTruthy]
  refine ⟨?_, ?_, ?_, ?_⟩
  · simp [handleMcpRequest, htok]
  · simp [handleMcpRequest, htok]
  · simp [handleMcpRequest]
  · simp [handleMcpRequest]

/-- C1 witness. -/
theorem auth_gating_witness :
    ((none : Option String) = none ∨ ∀ s, (none : Option String) = some s →
      (strStartsWith s "Bearer " = false ∨ s.drop 7 = "")) ∧
    ((handleMcpRequest ⟨"initialize", none, none, none⟩ (fun _ => .okJson .null)).1
      = ⟨401, rpcErrorEnv none (-32600)
          "OAuth authentication required. Please authenticate with Looker."⟩) ∧
    ((handleMcpRequest ⟨"tools/call", none, none, none⟩ (fun _ => .okJson .null)).1
      = ⟨401, rpcErrorEnv none (-32600) "OAuth authentication required"⟩) ∧
    ((handleMcpRequest ⟨"ping", none, none, none⟩ (fun _ => .okJson .null)).1
      = ⟨200, rpcResultEnv none (.obj [])⟩) ∧
    ((handleMcpRequest ⟨"tools/list", none, none, none⟩ (fun _ => .okJson .null)).1
      = ⟨200, rpcResultEnv none (.obj [("tools", .arr (tools.map toolToJson))])⟩) := by
  have hmain := auth_gating none none none (fun _ => .okJson .null) (Or.inl rfl)
  exact ⟨Or.inl rfl, hmain.1, hmain.2.1, hmain.2.2.1, hmain.2.2.2⟩

/-- C5: the tool registry and the executor's case labels are in 1:1
correspondence: the two name sequences are equal and duplicate-free, every
registry name has a handler (so dispatch never hits the unknown-tool
branch for it), every executor label has exactly one descriptor, and
`tools/list` returns the registry's serialization verbatim. -/
theorem registry_executor_coherence :
    (tools.map ToolDescriptor.name = executorHandlers.map Prod.fst) ∧
    (tools.map ToolDescriptor.name).Nodup ∧
    (tools.all (fun d => (findHandler d.name).isSome) = true) ∧
    (executorHandlers.all
      (fun hd => (tools.filter (fun d => d.name == hd.1)).length == 1) = true) ∧
    (∀ (params id : Option Json) (h : Option String) (u : Upstream),
      (handleMcpRequest ⟨"tools/list", params, id, h⟩ u).1
        = ⟨200, rpcResultEnv id (.obj [("tools", .arr (tools.map toolToJson))])⟩) := by
  refine ⟨by decide, by decide, by decide, by decide, ?_⟩
  intro params id h u
  rfl

/-- C2: `run_dashboard` never fails because one element's query run fails —
whenever the element listing succeeds the call returns a result; in the
two-element scenario where the first query run fails and the second
succeeds, the result is a two-entry array with one `error` entry and one
`data` entry, keyed by element id. -/
theorem run_dashboard_isolates_failures :
    (∀ (args : Json) (tok : String) (u : Upstream) (xs : List Json), ¬ tok = "" →
      u ⟨"GET", "/api/4.0/dashboards/" ++ jsToStringU (getField args "dashboard_id") ++
          "/dashboard_elements", tok, none⟩ = .okJson (.arr xs) →
      ∃ res, (executeTool "run_dashboard" args tok u).result = .ok res) ∧
    (∀ (tok : String) (u : Upstream) (rows : Json), ¬ tok = "" →
      u ⟨"GET", "/api/4.0/dashboards/d1/dashboard_elements", tok, none⟩
        = .okJson (.arr [
            .obj [("id", .str "e1"), ("title", .str "T1"), ("query_id", .str "q1")],
            .obj [("id", .str "e2"), ("title", .str "T2"), ("query_id", .str "q2")]]) →
      u ⟨"GET", "/api/4.0/queries/q1/run/json", tok, none⟩ = .err 500 "boom" →
      u ⟨"GET", "/api/4.0/queries/q2/run/json", tok, none⟩ = .okJson rows →
      (executeTool "run_dashboard" (.obj [("dashboard_id", .str "d1")]) tok u).result
        = .ok (.arr [
            .obj [("element_id", .str "e1"), ("title", .str "T1"),
              ("error", .str "Looker API error 500: boom")],
            .obj [("element_id", .str "e2"), ("title", .str "T2"),
              ("data", rows)]])) := by
  constructor
  · intro args tok u xs htok hu
    refine ⟨.arr ((xs.filter (fun e => jsTruthyOpt (getField e "query_id"))).map
      (runDashboardEntrySpec tok u)), ?_⟩
    have hloop := runDashboardLoop_result tok u xs []
    simp [executeTool, isEmpty_false_of_ne htok, findHandler, executorHandlers,
      ApiM.bind_eq, ApiM.bind, lookerApiCall, hu, hloop]
  · intro tok u rows htok hu1 hu2 hu3
    have hpath : "/api/4.0/dashboards/" ++
        jsToStringU (getField (.obj [("dashboard_id", Json.str "d1")]) "dashboard_id") ++
        "/dashboard_elements" = "/api/4.0/dashboards/d1/dashboard_elements" := rfl
    simp [executeTool, isEmpty_false_of_ne htok, findHandler, executorHandlers,
      ApiM.bind_eq, ApiM.bind, lookerApiCall, hpath, hu1]
    rw [runDashboardLoop_result tok u _ []]
    have h1 : jsTruthyOpt (getField (Json.obj [("id", .str "e1"), ("title", .str "T1"),
        ("query_id", .str "q1")]) "query_id") = true := rfl
    have h2 : jsTruthyOpt (getField (Json.obj [("id", .str "e2"), ("title", .str "T2"),
        ("query_id", .str "q2")]) "query_id") = true := rfl
    simp only [List.filter_cons, h1, h2, if_true, List.filter_nil, List.map_cons,
      List.map_nil, List.nil_append]
    have hq1 : "/api/4.0/queries/" ++
        jsToStringU (getField (Json.obj [("id", .str "e1"), ("title", .str "T1"),
          ("query_id", .str "q1")]) "query_id") ++ "/run/json"
        = "/api/4.0/queries/q1/run/json" := rfl
    have hq2 : "/api/4.0/queries/" ++
        jsToStringU (getField (Json.obj [("id", .str "e2"), ("title", .str "T2"),
          ("query_id", .str "q2")]) "query_id") ++ "/run/json"
        = "/api/4.0/queries/q2/run/json" := rfl
    simp only [runDashboardEntrySpec, hq1, hq2, hu2, hu3]
    rfl

/-- C2 witness. -/
theorem run_dashboard_isolates_failures_witness :
    (¬ ("t" : String) = "") ∧
    ((fun r : ApiRequest =>
        if r.path = "/api/4.0/dashboards/d1/dashboard_elements" then
          ApiResponse.okJson (.arr [
            .obj [("id", .str "e1"), ("title", .str "T1"), ("query_id", .str "q1")],
            .obj [("id", .str "e2"), ("title", .str "T2"), ("query_id", .str "q2")]])
        else if r.path = "/api/4.0/queries/q1/run/json" then .err 500 "boom"
        else .okJson (.arr [.num 1]))
      ⟨"GET", "/api/4.0/dashboards/d1/dashboard_elements", "t", none⟩
      = .okJson (.arr [
          .obj [("id", .str "e1"), ("title", .str "T1"), ("query_id", .str "q1")],
          .obj [("id", .str "e2"), ("title", .str "T2"), ("query_id", .str "q2")]])) ∧
    ((executeTool "run_dashboard" (.obj [("dashboard_id", .str "d1")]) "t"
        (fun r : ApiRequest =>
          if r.path = "/api/4.0/dashboards/d1/dashboard_elements" then
            ApiResponse.okJson (.arr [
              .obj [("id", .str "e1"), ("title", .str "T1"), ("query_id", .str "q1")],
              .obj [("id", .str "e2"), ("title", .str "T2"), ("query_id", .str "q2")]])
          else if r.path = "/api/4.0/queries/q1/run/json" then .err 500 "boom"
          else .okJson (.arr [.num 1]))).result
      = .ok (.arr [
          .obj [("element_id", .str "e1"), ("title", .str "T1"),
            ("error", .str "Looker API error 500: boom")],
          .obj [("element_id", .str "e2"), ("title", .str "T2"),
            ("data", .arr [.num 1])]])) :=
  ⟨by decide, by rfl,
    run_dashboard_isolates_failures.2 "t" _ (.arr [.num 1])
      (by decide) (by rfl) (by rfl) (by rfl)⟩

/-- C10: the aggregate result of `run_dashboard` has one entry per element
whose `query_id` is truthy (the code's presence test), in element-list
order — elements without a query id are silently omitted, so the result
length is the number of query-bearing elements, not the element count. -/
theorem run_dashboard_omits_queryless (args : Json) (tok : String) (u : Upstream)
    (xs : List Json) (htok : ¬ tok = "")
    (hu : u ⟨"GET", "/api/4.0/dashboards/" ++
        jsToStringU (getField args "dashboard_id") ++ "/dashboard_elements",
        tok, none⟩ = .okJson (.arr xs)) :
    (executeTool "run_dashboard" args tok u).result
      = .ok (.arr ((xs.filter (fun e => jsTruthyOpt (getField e "query_id"))).map
          (runDashboardEntrySpec tok u))) ∧
    ((xs.filter (fun e => jsTruthyOpt (getField e "query_id"))).map
        (runDashboardEntrySpec tok u)).length
      = (xs.filter (fun e => jsTruthyOpt (getField e "query_id"))).length := by
  constructor
  · have hloop := runDashboardLoop_result tok u xs []
    simp [executeTool, isEmpty_false_of_ne htok, findHandler, executorHandlers,
      ApiM.bind_eq, ApiM.bind, lookerApiCall, hu, hloop]
  · exact List.length_map _ _

/-- C10 witness: a three-element dashboard with one query-less element
yields exactly two entries. -/
theorem run_dashboard_omits_queryless_witness :
    (¬ ("t" : String) = "") ∧
    ((fun r : ApiRequest =>
        if r.path = "/api/4.0/dashboards/d2/dashboard_elements" then
          ApiResponse.okJson (.arr [
            .obj [("id", .str "e1"), ("query_id", .str "q1")],
            .obj [("id", .str "e2")],
            .obj [("id", .str "e3"), ("query_id", .str "q3")]])
        else .okJson (.num 0))
      ⟨"GET", "/api/4.0/dashboards/d2/dashboard_elements", "t", none⟩
      = .okJson (.arr [
          .obj [("id", .str "e1"), ("query_id", .str "q1")],
          .obj [("id", .str "e2")],
          .obj [("id", .str "e3"), ("query_id", .str "q3")]])) ∧
    ((executeTool "run_dashboard" (.obj [("dashboard_id", .str "d2")]) "t"
        (fun r : ApiRequest =>
          if r.path = "/api/4.0/dashboards/d2/dashboard_elements" then
            ApiResponse.okJson (.arr [
              .obj [("id", .str "e1"), ("query_id", .str "q1")],
              .obj [("id", .str "e2")],
              .obj [("id", .str "e3"), ("query_id", .str "q3")]])
          else .okJson (.num 0))).result
      = .ok (.arr (([
            Json.obj [("id", .str "e1"), ("query_id", .str "q1")],
            Json.obj [("id", .str "e2")],
            Json.obj [("id", .str "e3"), ("query_id", .str "q3")]].filter
              (fun e => jsTruthyOpt (getField e "query_id"))).map
          (runDashboardEntrySpec "t"
            (fun r : ApiRequest =>
              if r.path = "/api/4.0/dashboards/d2/dashboard_elements" then
                ApiResponse.okJson (.arr [
                  .obj [("id", .str "e1"), ("query_id", .str "q1")],
                  .obj [("id", .str "e2")],
                  .obj [("id", .str "e3"), ("query_id", .str "q3")]])
              else .okJson (.num 0)))))) :=
  ⟨by decide, by rfl,
    (run_dashboard_omits_queryless (.obj [("dashboard_id", .str "d2")]) "t" _ _
      (by decide) (by rfl)).1⟩

/-- C3 counterexample: `make_dashboard` performs no query-creation step —
its upstream trace is exactly the who-am-I call followed by the dashboard
creation, and no request goes to `/api/4.0/queries`. -/
theorem make_dashboard_no_query_counterexample :
    ((executeTool "make_dashboard" (.obj [("title", .str "T")]) "tok"
        (fun r : ApiRequest =>
          if r.path = "/api/4.0/user" then
            .okJson (.obj [("personal_folder_id", .str "f1")])
          else .okJson (.obj [("id", .str "7"), ("title", .str "T")]))).trace.map
        (fun r => (r.method, r.path))
      = [("GET", "/api/4.0/user"), ("POST", "/api/4.0/dashboards")]) ∧
    ((executeTool "make_dashboard" (.obj [("title", .str "T")]) "tok"
        (fun r : ApiRequest =>
          if r.path = "/api/4.0/user" then
            .okJson (.obj [("personal_folder_id", .str "f1")])
          else .okJson (.obj [("id", .str "7"), ("title", .str "T")]))).trace.all
        (fun r => !(r.path == "/api/4.0/queries")) = true) :=
  ⟨by rfl, by rfl⟩

/-- C3 amended: `make_look` performs who-am-I, then query creation, then
look creation referencing the created query's id, returning the new look's
id and URL (base URL + `/looks/` + id); `make_dashboard` performs who-am-I
and then creates the dashboard directly in the personal folder with no
query step, returning its id and URL (base URL + `/dashboards/` + id). -/
theorem artifact_creation_sequence :
    (∀ (args : Json) (tok : String) (u : Upstream) (me cq lk : Json), ¬ tok = "" →
      u ⟨"GET", "/api/4.0/user", tok, none⟩ = .okJson me →
      u ⟨"POST", "/api/4.0/queries", tok, some (buildQueryBodyVis args)⟩ = .okJson cq →
      u ⟨"POST", "/api/4.0/looks", tok, some (mkObj [
          ("title", getField args "title"),
          ("description", some (jsOr (getField args "description") (.str ""))),
          ("folder_id", getField me "personal_folder_id"),
          ("query_id", getField cq "id")])⟩ = .okJson lk →
      (executeTool "make_look" args tok u).trace
        = [⟨"GET", "/api/4.0/user", tok, none⟩,
           ⟨"POST", "/api/4.0/queries", tok, some (buildQueryBodyVis args)⟩,
           ⟨"POST", "/api/4.0/looks", tok, some (mkObj [
              ("title", getField args "title"),
              ("description", some (jsOr (getField args "description") (.str ""))),
              ("folder_id", getField me "personal_folder_id"),
              ("query_id", getField cq "id")])⟩] ∧
      (executeTool "make_look" args tok u).result
        = .ok (mkObj [("id", getField lk "id"), ("title", getField lk "title"),
            ("url", some (.str (LOOKER_BASE_URL ++ "/looks/" ++
              jsToStringU (getField lk "id"))))])) ∧
    (∀ (args : Json) (tok : String) (u : Upstream) (me db : Json), ¬ tok = "" →
      u ⟨"GET", "/api/4.0/user", tok, none⟩ = .okJson me →
      u ⟨"POST", "/api/4.0/dashboards", tok, some (mkObj [
          ("title", getField args "title"),
          ("description", some (jsOr (getField args "description") (.str ""))),
          ("folder_id", getField me "personal_folder_id")])⟩ = .okJson db →
      (executeTool "make_dashboard" args tok u).trace
        = [⟨"GET", "/api/4.0/user", tok, none⟩,
           ⟨"POST", "/api/4.0/dashboards", tok, some (mkObj [
              ("title", getField args "title"),
              ("description", some (jsOr (getField args "description") (.str ""))),
              ("folder_id", getField me "personal_folder_id")])⟩] ∧
      ((executeTool "make_dashboard" args tok u).trace.all
        (fun r => !(r.path == "/api/4.0/queries")) = true) ∧
      (executeTool "make_dashboard" args tok u).result
        = .ok (mkObj [("id", getField db "id"), ("title", getField db "title"),
            ("url", some (.str (LOOKER_BASE_URL ++ "/dashboards/" ++
              jsToStringU (getField db "id"))))])) := by
  constructor
  · intro args tok u me cq lk htok hu1 hu2 hu3
    constructor
    · simp [executeTool, isEmpty_false_of_ne htok, findHandler, executorHandlers,
        ApiM.bind_eq, ApiM.bind, ApiM.pure_eq, ApiM.pure, ApiM.pure_apply, lookerApiCall,
        hu1, hu2, hu3]
      all_goals rfl
    · simp [executeTool, isEmpty_false_of_ne htok, findHandler, executorHandlers,
        ApiM.bind_eq, ApiM.bind, ApiM.pure_eq, ApiM.pure, ApiM.pure_apply, lookerApiCall,
        hu1, hu2, hu3]
      all_goals rfl
  · intro args tok u me db htok hu1 hu2
    have htr : (executeTool "make_dashboard" args tok u).trace
        = [⟨"GET", "/api/4.0/user", tok, none⟩,
           ⟨"POST", "/api/4.0/dashboards", tok, some (mkObj [
              ("title", getField args "title"),
              ("description", some (jsOr (getField args "description") (.str ""))),
              ("folder_id", getField me "personal_folder_id")])⟩] := by
      simp [executeTool, isEmpty_false_of_ne htok, findHandler, executorHandlers,
        ApiM.bind_eq, ApiM.bind, ApiM.pure_eq, ApiM.pure, ApiM.pure_apply, lookerApiCall, hu1, hu2]
      all_goals rfl
    refine ⟨htr, ?_, ?_⟩
    · rw [htr]
      rfl
    · simp [executeTool, isEmpty_false_of_ne htok, findHandler, executorHandlers,
        ApiM.bind_eq, ApiM.bind, ApiM.pure_eq, ApiM.pure, ApiM.pure_apply, lookerApiCall, hu1, hu2]
      all_goals rfl

/-- C3 amended witness. -/
theorem artifact_creation_sequence_witness :
    (¬ ("t" : String) = "") ∧
    ((fun r : ApiRequest =>
        if r.path = "/api/4.0/user" then
          ApiResponse.okJson (.obj [("personal_folder_id", .str "f1")])
        else if r.path = "/api/4.0/queries" then .okJson (.obj [("id", .str "q9")])
        else .okJson (.obj [("id", .str "7"), ("title", .str "L")]))
      ⟨"GET", "/api/4.0/user", "t", none⟩
      = .okJson (.obj [("personal_folder_id", .str "f1")])) ∧
    ((executeTool "make_look" (.obj [("title", .str "L")]) "t"
        (fun r : ApiRequest =>
          if r.path = "/api/4.0/user" then
            ApiResponse.okJson (.obj [("personal_folder_id", .str "f1")])
          else if r.path = "/api/4.0/queries" then .okJson (.obj [("id", .str "q9")])
          else .okJson (.obj [("id", .str "7"), ("title", .str "L")]))).result
      = .ok (mkObj [("id", getField (Json.obj [("id", .str "7"), ("title", .str "L")]) "id"),
          ("title", getField (Json.obj [("id", .str "7"), ("title", .str "L")]) "title"),
          ("url", some (.str (LOOKER_BASE_URL ++ "/looks/" ++
            jsToStringU (getField (Json.obj [("id", .str "7"), ("title", .str "L")]) "id"))))])) :=
  ⟨by decide, by rfl,
    (artifact_creation_sequence.1 (.obj [("title", .str "L")]) "t" _
      (.obj [("personal_folder_id", .str "f1")]) (.obj [("id", .str "q9")])
      (.obj [("id", .str "7"), ("title", .str "L")])
      (by decide) (by rfl) (by rfl) (by rfl)).2⟩

/-- C4 counterexample: a failing sub-call inside `health_analyze`
propagates — the tool call itself fails instead of returning a partial
result. -/
theorem health_analyze_propagates_counterexample :
    (executeTool "health_analyze" (.obj [("project", .str "p1")]) "tok"
      (fun _ => .err 500 "boom")).result
      = .error "Looker API error 500: boom" := by
  rfl

/-- C4 amended: `health_pulse` and `health_vacuum` catch a failing
sub-call, record the first failure's message in a single top-level `error`
field (skipping the remaining sub-calls of the same try block) and never
fail; `health_analyze` performs its sub-calls uncaught, so a failing
sub-call propagates and fails the tool call. -/
theorem health_tools_error_policy :
    (∀ (args : Json) (tok : String) (u : Upstream), ¬ tok = "" →
      ∃ v, (executeTool "health_pulse" args tok u).result = .ok v) ∧
    (∀ (args : Json) (tok : String) (u : Upstream) (s : Nat) (text : String),
      ¬ tok = "" →
      u ⟨"GET", "/api/4.0/connections", tok, none⟩ = .err s text →
      (executeTool "health_pulse" args tok u).result
        = .ok (mkObj [("error",
            some (.str ("Looker API error " ++ toString s ++ ": " ++ text)))]) ∧
      (executeTool "health_pulse" args tok u).trace
        = [⟨"GET", "/api/4.0/connections", tok, none⟩]) ∧
    (∀ (args : Json) (tok : String) (u : Upstream), ¬ tok = "" →
      ∃ v, (executeTool "health_vacuum" args tok u).result = .ok v) ∧
    (∀ (args : Json) (tok : String) (u : Upstream) (s : Nat) (text : String),
      ¬ tok = "" →
      u ⟨"GET", "/api/4.0/content_metadata_access?limit=100", tok, none⟩
        = .err s text →
      (executeTool "health_vacuum" args tok u).result
        = .ok (mkObj [("error",
            some (.str ("Looker API error " ++ toString s ++ ": " ++ text)))]) ∧
      (executeTool "health_vacuum" args tok u).trace
        = [⟨"GET", "/api/4.0/content_metadata_access?limit=100", tok, none⟩]) ∧
    (∀ (args : Json) (tok : String) (u : Upstream) (s : Nat) (text : String)
        (v : Json) (proj : String),
      ¬ tok = "" → getField args "project" = some (.str proj) → ¬ proj = "" →
      u ⟨"GET", "/api/4.0/content_metadata_access?limit=100", tok, none⟩
        = .okJson v →
      u ⟨"GET", "/api/4.0/projects/" ++ proj ++ "/files", tok, none⟩
        = .err s text →
      (executeTool "health_vacuum" args tok u).result
        = .ok (mkObj [("content_usage", some v), ("error",
            some (.str ("Looker API error " ++ toString s ++ ": " ++ text)))]) ∧
      (executeTool "health_vacuum" args tok u).trace
        = [⟨"GET", "/api/4.0/content_metadata_access?limit=100", tok, none⟩,
           ⟨"GET", "/api/4.0/projects/" ++ proj ++ "/files", tok, none⟩]) ∧
    (∀ (args : Json) (tok : String) (u : Upstream) (s : Nat) (text proj : String),
      ¬ tok = "" → getField args "project" = some (.str proj) → ¬ proj = "" →
      u ⟨"GET", "/api/4.0/projects/" ++ proj, tok, none⟩ = .err s text →
      (executeTool "health_analyze" args tok u).result
        = .error ("Looker API error " ++ toString s ++ ": " ++ text)) := by
  refine ⟨?_, ?_, ?_, ?_, ?_, ?_⟩
  · intro args tok u htok
    cases hc : u ⟨"GET", "/api/4.0/connections", tok, none⟩ with
    | okJson v =>
      cases hr : u ⟨"GET", "/api/4.0/running_queries", tok, none⟩ with
      | okJson w =>
        simp [executeTool, isEmpty_false_of_ne htok, findHandler, executorHandlers, ApiM.bind_eq, ApiM.bind, ApiM.pure_eq, ApiM.pure, ApiM.pure_apply, attempt, lookerApiCall, hc, hr]
        all_goals exact ⟨_, rfl⟩
      | okText s2 =>
        simp [executeTool, isEmpty_false_of_ne htok, findHandler, executorHandlers, ApiM.bind_eq, ApiM.bind, ApiM.pure_eq, ApiM.pure, ApiM.pure_apply, attempt, lookerApiCall, hc, hr]
        all_goals exact ⟨_, rfl⟩
      | err s2 t2 =>
        simp [executeTool, isEmpty_false_of_ne htok, findHandler, executorHandlers, ApiM.bind_eq, ApiM.bind, ApiM.pure_eq, ApiM.pure, ApiM.pure_apply, attempt, lookerApiCall, hc, hr]
        all_goals exact ⟨_, rfl⟩
    | okText s =>
      cases hr : u ⟨"GET", "/api/4.0/running_queries", tok, none⟩ with
      | okJson w =>
        simp [executeTool, isEmpty_false_of_ne htok, findHandler, executorHandlers, ApiM.bind_eq, ApiM.bind, ApiM.pure_eq, ApiM.pure, ApiM.pure_apply, attempt, lookerApiCall, hc, hr]
        all_goals exact ⟨_, rfl⟩
      | okText s2 =>
        simp [executeTool, isEmpty_false_of_ne htok, findHandler, executorHandlers, ApiM.bind_eq, ApiM.bind, ApiM.pure_eq, ApiM.pure, ApiM.pure_apply, attempt, lookerApiCall, hc, hr]
        all_goals exact ⟨_, rfl⟩
      | err s2 t2 =>
        simp [executeTool, isEmpty_false_of_ne htok, findHandler, executorHandlers, ApiM.bind_eq, ApiM.bind, ApiM.pure_eq, ApiM.pure, ApiM.pure_apply, attempt, lookerApiCall, hc, hr]
        all_goals exact ⟨_, rfl⟩
    | err s t =>
      simp [executeTool, isEmpty_false_of_ne htok, findHandler, executorHandlers, ApiM.bind_eq, ApiM.bind, ApiM.pure_eq, ApiM.pure, ApiM.pure_apply, attempt, lookerApiCall, hc]
      all_goals exact ⟨_, rfl⟩
  · intro args tok u s text htok hc
    constructor
    · simp [executeTool, isEmpty_false_of_ne htok, findHandler, executorHandlers, ApiM.bind_eq, ApiM.bind, ApiM.pure_eq, ApiM.pure, ApiM.pure_apply, attempt, lookerApiCall, hc]
      all_goals rfl
    · simp [executeTool, isEmpty_false_of_ne htok, findHandler, executorHandlers, ApiM.bind_eq, ApiM.bind, ApiM.pure_eq, ApiM.pure, ApiM.pure_apply, attempt, lookerApiCall, hc]
      all_goals rfl
  · intro args tok u htok
    cases hc : u ⟨"GET", "/api/4.0/content_metadata_access?limit=100", tok, none⟩ with
    | okJson v =>
      by_cases hp : jsTruthyOpt (getField args "project") = true
      · cases hf : u ⟨"GET", "/api/4.0/projects/" ++
            jsToStringU (getField args "project") ++ "/files", tok, none⟩ with
        | okJson w =>
          simp [executeTool, isEmpty_false_of_ne htok, findHandler, executorHandlers, ApiM.bind_eq, ApiM.bind, ApiM.pure_eq, ApiM.pure, ApiM.pure_apply, attempt, lookerApiCall, hc, hp, hf]
          all_goals exact ⟨_, rfl⟩
        | okText s2 =>
          simp [executeTool, isEmpty_false_of_ne htok, findHandler, executorHandlers, ApiM.bind_eq, ApiM.bind, ApiM.pure_eq, ApiM.pure, ApiM.pure_apply, attempt, lookerApiCall, hc, hp, hf]
          all_goals exact ⟨_, rfl⟩
        | err s2 t2 =>
          simp [executeTool, isEmpty_false_of_ne htok, findHandler, executorHandlers, ApiM.bind_eq, ApiM.bind, ApiM.pure_eq, ApiM.pure, ApiM.pure_apply, attempt, lookerApiCall, hc, hp, hf]
          all_goals exact ⟨_, rfl⟩
      · simp at hp
        simp [executeTool, isEmpty_false_of_ne htok, findHandler, executorHandlers, ApiM.bind_eq, ApiM.bind, ApiM.pure_eq, ApiM.pure, ApiM.pure_apply, attempt, lookerApiCall, hc, hp]
        all_goals exact ⟨_, rfl⟩
    | okText s =>
      by_cases hp : jsTruthyOpt (getField args "project") = true
      · cases hf : u ⟨"GET", "/api/4.0/projects/" ++
            jsToStringU (getField args "project") ++ "/files", tok, none⟩ with
        | okJson w =>
          simp [executeTool, isEmpty_false_of_ne htok, findHandler, executorHandlers, ApiM.bind_eq, ApiM.bind, ApiM.pure_eq, ApiM.pure, ApiM.pure_apply, attempt, lookerApiCall, hc, hp, hf]
          all_goals exact ⟨_, rfl⟩
        | okText s2 =>
          simp [executeTool, isEmpty_false_of_ne htok, findHandler, executorHandlers, ApiM.bind_eq, ApiM.bind, ApiM.pure_eq, ApiM.pure, ApiM.pure_apply, attempt, lookerApiCall, hc, hp, hf]
          all_goals exact ⟨_, rfl⟩
        | err s2 t2 =>
          simp [executeTool, isEmpty_false_of_ne htok, findHandler, executorHandlers, ApiM.bind_eq, ApiM.bind, ApiM.pure_eq, ApiM.pure, ApiM.pure_apply, attempt, lookerApiCall, hc, hp, hf]
          all_goals exact ⟨_, rfl⟩
      · simp at hp
        simp [executeTool, isEmpty_false_of_ne htok, findHandler, executorHandlers, ApiM.bind_eq, ApiM.bind, ApiM.pure_eq, ApiM.pure, ApiM.pure_apply, attempt, lookerApiCall, hc, hp]
        all_goals exact ⟨_, rfl⟩
    | err s t =>
      simp [executeTool, isEmpty_false_of_ne htok, findHandler, executorHandlers, ApiM.bind_eq, ApiM.bind, ApiM.pure_eq, ApiM.pure, ApiM.pure_apply, attempt, lookerApiCall, hc]
      all_goals exact ⟨_, rfl⟩
  · intro args tok u s text htok hc
    constructor
    · simp [executeTool, isEmpty_false_of_ne htok, findHandler, executorHandlers, ApiM.bind_eq, ApiM.bind, ApiM.pure_eq, ApiM.pure, ApiM.pure_apply, attempt, lookerApiCall, hc]
      all_goals rfl
    · simp [executeTool, isEmpty_false_of_ne htok, findHandler, executorHandlers, ApiM.bind_eq, ApiM.bind, ApiM.pure_eq, ApiM.pure, ApiM.pure_apply, attempt, lookerApiCall, hc]
      all_goals rfl
  · intro args tok u s text v proj htok hproj hpne hcv hf
    have hp : jsTruthyOpt (getField args "project") = true := by
      rw [hproj]
      simp [jsTruthyOpt, jsTruthy, isEmpty_false_of_ne hpne]
    have hpath : jsToStringU (getField args "project") = proj := by
      rw [hproj]
      rfl
    constructor
    · simp [executeTool, isEmpty_false_of_ne htok, findHandler, executorHandlers, ApiM.bind_eq, ApiM.bind, ApiM.pure_eq, ApiM.pure, ApiM.pure_apply, attempt, lookerApiCall, hcv, hp, hpath, hf]
      all_goals rfl
    · simp [executeTool, isEmpty_false_of_ne htok, findHandler, executorHandlers, ApiM.bind_eq, ApiM.bind, ApiM.pure_eq, ApiM.pure, ApiM.pure_apply, attempt, lookerApiCall, hcv, hp, hpath, hf]
      all_goals rfl
  · intro args tok u s text proj htok hproj hpne hu
    have hp : jsTruthyOpt (getField args "project") = true := by
      rw [hproj]
      simp [jsTruthyOpt, jsTruthy, isEmpty_false_of_ne hpne]
    have hpath : jsToStringU (getField args "project") = proj := by
      rw [hproj]
      rfl
    simp [executeTool, isEmpty_false_of_ne htok, findHandler, executorHandlers, ApiM.bind_eq, ApiM.bind, ApiM.pure_eq, ApiM.pure, ApiM.pure_apply, attempt, lookerApiCall, hp, hpath, hu]

/-- C4 amended witness. -/
theorem health_tools_error_policy_witness :
    (¬ ("t" : String) = "") ∧
    ((fun _ : ApiRequest => ApiResponse.err 500 "down")
      ⟨"GET", "/api/4.0/connections", "t", none⟩ = .err 500 "down") ∧
    ((executeTool "health_pulse" (.obj []) "t"
        (fun _ : ApiRequest => ApiResponse.err 500 "down")).result
      = .ok (mkObj [("error", some (.str ("Looker API error " ++ toString (500 : Nat)
          ++ ": " ++ "down")))])) ∧
    ((executeTool "health_vacuum" (.obj []) "t"
        (fun _ : ApiRequest => ApiResponse.err 500 "down")).result
      = .ok (mkObj [("error", some (.str ("Looker API error " ++ toString (500 : Nat)
          ++ ": " ++ "down")))])) ∧
    ((executeTool "health_vacuum" (.obj [("project", .str "p1")]) "t"
        (fun r : ApiRequest =>
          if r.path = "/api/4.0/content_metadata_access?limit=100"
          then ApiResponse.okJson (Json.arr []) else ApiResponse.err 404 "gone")).result
      = .ok (mkObj [("content_usage", some (Json.arr [])), ("error",
          some (.str ("Looker API error " ++ toString (404 : Nat)
            ++ ": " ++ "gone")))])) :=
  ⟨by decide, by rfl,
    (health_tools_error_policy.2.1 (.obj []) "t"
      (fun _ : ApiRequest => ApiResponse.err 500 "down") 500 "down"
      (by decide) (by rfl)).1,
    (health_tools_error_policy.2.2.2.1 (.obj []) "t"
      (fun _ : ApiRequest => ApiResponse.err 500 "down") 500 "down"
      (by decide) (by rfl)).1,
    (health_tools_error_policy.2.2.2.2.1 (.obj [("project", .str "p1")]) "t"
      (fun r : ApiRequest =>
        if r.path = "/api/4.0/content_metadata_access?limit=100"
        then ApiResponse.okJson (Json.arr []) else ApiResponse.err 404 "gone")
      404 "gone" (Json.arr []) "p1"
      (by decide) (by rfl) (by decide) (by rfl) (by rfl)).1⟩

/-- C9: `tools/call` of `get_dashboards` with `{title: "Revenue"}` issues
exactly one upstream GET whose query string contains `title=Revenue`, and
the response is a 200 result envelope whose `content[0].text` is the
serialized upstream array, which parses back to the raw array the upstream
returned. -/
theorem get_dashboards_roundtrip
    (h : String) (id : Option Json) (u : Upstream) (v : Json)
    (hpre : strStartsWith h "Bearer " = true) (hne : ¬ h.drop 7 = "")
    (hu : u ⟨"GET", "/api/4.0/dashboards?title=Revenue", h.drop 7, none⟩
      = .okJson v) :
    (handleMcpRequest ⟨"tools/call",
        some (.obj [("name", .str "get_dashboards"),
          ("arguments", .obj [("title", .str "Revenue")])]), id, some h⟩ u).2
      = [⟨"GET", "/api/4.0/dashboards?title=Revenue", h.drop 7, none⟩] ∧
    strIncludes "/api/4.0/dashboards?title=Revenue" "title=Revenue" = true ∧
    (handleMcpRequest ⟨"tools/call",
        some (.obj [("name", .str "get_dashboards"),
          ("arguments", .obj [("title", .str "Revenue")])]), id, some h⟩ u).1
      = ⟨200, rpcResultEnv id (.obj [("content", .arr [.obj [
          ("type", .str "text"), ("text", .str (jsonStringifyPretty v))]])])⟩ ∧
    jsonParse (jsonStringifyPretty v) = some v := by
  have hpath : searchPath "/api/4.0/dashboards"
      (searchParamsFor (.obj [("title", Json.str "Revenue")]))
      = "/api/4.0/dashboards?title=Revenue" := rfl
  refine ⟨?_, by decide, ?_, jsonParse_stringify v⟩
  · simp [handleMcpRequest, extractAccessToken, hpre, tokenTruthy,
      isEmpty_false_of_ne hne, getField, jsOr, jsTruthy, executeTool,
      findHandler, executorHandlers, hpath, lookerApiCall, hu]
  · simp [handleMcpRequest, extractAccessToken, hpre, tokenTruthy,
      isEmpty_false_of_ne hne, getField, jsOr, jsTruthy, executeTool,
      findHandler, executorHandlers, hpath, lookerApiCall, hu]

/-- C9 witness. -/
theorem get_dashboards_roundtrip_witness :
    (strStartsWith "Bearer t" "Bearer " = true) ∧
    (¬ ("Bearer t" : String).drop 7 = "") ∧
    ((fun r : ApiRequest => if r.path = "/api/4.0/dashboards?title=Revenue"
        then ApiResponse.okJson (.arr [.obj [("id", .str "1")]]) else .okJson .null)
      ⟨"GET", "/api/4.0/dashboards?title=Revenue", ("Bearer t" : String).drop 7, none⟩
      = .okJson (.arr [.obj [("id", .str "1")]])) ∧
    (jsonParse (jsonStringifyPretty (.arr [.obj [("id", .str "1")]]))
      = some (.arr [.obj [("id", .str "1")]])) :=
  ⟨by decide, by decide, by rfl,
    (get_dashboards_roundtrip "Bearer t" none
      (fun r : ApiRequest => if r.path = "/api/4.0/dashboards?title=Revenue"
        then ApiResponse.okJson (.arr [.obj [("id", .str "1")]]) else .okJson .null)
      (.arr [.obj [("id", .str "1")]])
      (by decide) (by decide) (by rfl)).2.2.2⟩

end McpProxy
